import Mathlib

/-!
Verification development for the slashrun simulation kernel.

This file gives a shallow embedding, in Lean 4, of the simulation kernel of
the repository: the world-state data model (src/db/models/state.py), the
audit capture (AuditCapture / DatabaseAuditCapture), the trigger condition
evaluator (src/backend/app/simulation/trigger_conditions.py), the trigger
actions (src/backend/app/simulation/trigger_actions.py), the trigger engine
(src/backend/app/simulation/triggers.py), the reducer pipeline
(src/backend/app/simulation/reducers.py), and the per-step orchestration
done by the web layer (step_simulation in src/backend/app/api/simulation.py).

Modelling conventions:
- Python floats are modelled as exact rationals (ℚ); the formulas are
  faithful to the source term structure, ignoring IEEE-754 rounding.
- Python dicts are modelled as association lists preserving insertion
  order (Python dicts preserve insertion order, and the source iterates
  over countries in that order).
- Nullable numeric fields are Option ℚ; Python None is the value none.
- Python truthiness of `x or d` on numbers (None and 0.0 are both falsy)
  is modelled explicitly by pyOrElse.
- Fallible paths return Except or record errors into the audit, exactly
  where the source catches exceptions and calls audit.add_error.
-/

/-- A Python value as it appears in audit records and free-form parameter
bags: a number, a string, a boolean, None, a list of strings (used for
the triggers_fired detail), or a string-to-count mapping (used for the
per-trigger actions_applied detail). -/
inductive PyVal where
  | num (q : ℚ)
  | str (s : String)
  | bool (b : Bool)
  | pynone
  | strlist (xs : List String)
  | natmap (xs : List (String × ℕ))
  deriving DecidableEq, Repr

/-- Association-list lookup, modelling Python `d.get(k)` / `k in d`. -/
def alookup {β : Type} : List (String × β) → String → Option β
  | [], _ => none
  | (k, v) :: rest, key => if k = key then some v else alookup rest key

/-- Association-list store, modelling Python `d[k] = v`: overwrite the
binding in place if the key is present, append it otherwise. -/
def aset {β : Type} : List (String × β) → String → β → List (String × β)
  | [], key, v => [(key, v)]
  | (k, w) :: rest, key, v =>
      if k = key then (k, v) :: rest else (k, w) :: aset rest key v

/-- Association-list delete, modelling Python `d.pop(k, None)`. -/
def adel {β : Type} : List (String × β) → String → List (String × β)
  | [], _ => []
  | (k, w) :: rest, key => if k = key then rest else (k, w) :: adel rest key

/-- The keys of an association list, in order. -/
def akeys {β : Type} (l : List (String × β)) : List String := l.map Prod.fst

/-- Python `x or d` on an optional number: None and 0.0 are falsy, so both
fall through to the default. -/
def pyOrElse (x : Option ℚ) (d : ℚ) : ℚ :=
  match x with
  | none => d
  | some q => if q = 0 then d else q

/-- Lift an optional number to a PyVal (None becomes pynone). -/
def optToVal (x : Option ℚ) : PyVal :=
  match x with
  | none => PyVal.pynone
  | some q => PyVal.num q

/-- Read a numeric entry of a free-form parameter bag with a default,
modelling Python `bag.get(key, default)` on a well-typed bag. -/
def bagGetNum (bag : List (String × PyVal)) (key : String) (d : ℚ) : ℚ :=
  match alookup bag key with
  | some (PyVal.num q) => q
  | _ => d

/-- Read a string entry of a free-form parameter bag with a default,
modelling Python `bag.get(key, default)` on a well-typed bag. -/
def bagGetStr (bag : List (String × PyVal)) (key : String) (d : String) : String :=
  match alookup bag key with
  | some (PyVal.str s) => s
  | _ => d

/-! ## World-state model (src/db/models/state.py) -/

/-- Macroeconomic indicators for a country (class Macro).  The source
field名 `macro` is a Lean keyword, so the slice type is called
MacroSlice and the CountryState field holding it is `macroSlice`.
inflation_target and sfa are non-nullable in the source (defaults 0.02
and 0.0), all other fields are nullable. -/
structure MacroSlice where
  gdp : Option ℚ := none
  potential_gdp : Option ℚ := none
  inflation : Option ℚ := none
  unemployment : Option ℚ := none
  output_gap : Option ℚ := none
  primary_balance : Option ℚ := none
  debt_gdp : Option ℚ := none
  neutral_rate : Option ℚ := none
  policy_rate : Option ℚ := none
  inflation_target : ℚ := 1/50
  sfa : ℚ := 0
  deriving DecidableEq, Repr

/-- External sector indicators (class External). -/
structure External where
  fx_rate : Option ℚ := none
  reserves_usd : Option ℚ := none
  current_account_gdp : Option ℚ := none
  net_errors_omissions_gdp : ℚ := 0
  deriving DecidableEq, Repr

/-- Financial sector indicators (class Finance). -/
structure Finance where
  sovereign_yield : Option ℚ := none
  credit_spread : Option ℚ := none
  bank_tier1_ratio : Option ℚ := none
  leverage_target : ℚ := 10
  deriving DecidableEq, Repr

/-- Trade sector indicators (class Trade). -/
structure TradeSlice where
  exports_gdp : Option ℚ := none
  imports_gdp : Option ℚ := none
  tariff_mfn_avg : Option ℚ := none
  ntm_index : Option ℚ := none
  terms_of_trade : ℚ := 1
  deriving DecidableEq, Repr

/-- Energy and food sector indicators (class EnergyFood). -/
structure EnergyFood where
  energy_stock_to_use : Option ℚ := none
  food_price_index : Option ℚ := none
  energy_price_index : Option ℚ := none
  deriving DecidableEq, Repr

/-- Security indicators (class Security).  personnel is annotated int in
the source but assignments are not validated; it is modelled as ℚ and
the mobilization increment is truncated to an integer as Python int()
does. -/
structure Security where
  milex_gdp : Option ℚ := none
  personnel : Option ℚ := none
  conflict_intensity : Option ℚ := none
  deriving DecidableEq, Repr

/-- Sentiment indicators (class Sentiment). -/
structure Sentiment where
  gdelt_tone : Option ℚ := none
  trends_salience : Option ℚ := none
  policy_pressure : Option ℚ := none
  approval : Option ℚ := none
  deriving DecidableEq, Repr

/-- Complete state of a single country (class CountryState). -/
structure CountryState where
  name : String
  macroSlice : MacroSlice := {}
  external : External := {}
  finance : Finance := {}
  trade : TradeSlice := {}
  energy : EnergyFood := {}
  security : Security := {}
  sentiment : Sentiment := {}
  deriving DecidableEq, Repr

/-- A sparse cross-country matrix: mapping from-code to mapping to-code
to weight. -/
abbrev NetMatrix : Type := List (String × List (String × ℚ))

/-- Policy regime parameters (class RegimeParams): seven named free-form
parameter bags, with the source default_factory contents. -/
structure RegimeParams where
  monetary : List (String × PyVal) :=
    [("rule", PyVal.str ("taylor")), ("phi_pi", PyVal.num (1/2)),
     ("phi_y", PyVal.num (1/2))]
  fx : List (String × PyVal) := [("uip_rho_base", PyVal.num 0)]
  fiscal : List (String × PyVal) :=
    [("wealth_tax_rate", PyVal.num 0), ("elasticity_saving", PyVal.num (-3/10))]
  trade : List (String × PyVal) :=
    [("tariff_multiplier", PyVal.num 1), ("ntm_shock", PyVal.num 0)]
  security : List (String × PyVal) := [("mobilization_intensity", PyVal.num 0)]
  labor : List (String × PyVal) := [("national_service_pct", PyVal.num 0)]
  sentiment : List (String × PyVal) := [("propaganda_gain", PyVal.num 0)]
  deriving DecidableEq, Repr

/-- Simulation rules (class SimulationRules).  SimulationRules does not
allow extra fields, so no reducer_overrides entry can exist on it. -/
structure SimulationRules where
  regimes : RegimeParams := {}
  rng_seed : ℤ := 42
  invariants : List (String × Bool) := [("bmp6", true), ("sfc_light", true)]
  deriving DecidableEq, Repr

/-- An injected event as built by inject_event. -/
structure EventObj where
  kind : String
  payload : List (String × PyVal)
  injected_at_timestep : ℕ
  status : String
  deriving DecidableEq, Repr

/-- The events queue of the global state. -/
structure EventsQueue where
  pending : List EventObj := []
  processed : List EventObj := []
  deriving DecidableEq, Repr

/-- Complete global simulation state (class GlobalState).  The turn
counter t is a Python int (signed); policy patches can write it
directly. -/
structure GlobalState where
  t : ℤ := 0
  base_ccy : String := "USD"
  countries : List (String × CountryState) := []
  trade_matrix : NetMatrix := []
  interbank_matrix : NetMatrix := []
  alliance_graph : NetMatrix := []
  sanctions : NetMatrix := []
  io_coefficients : List (String × List (String × ℚ)) := []
  commodity_prices : List (String × ℚ) := []
  rules : SimulationRules := {}
  events : EventsQueue := {}
  deriving DecidableEq, Repr

/-! ## Audit capture (class AuditCapture / DatabaseAuditCapture) -/

/-- Record of a single field change (class FieldChange).  old_value and
new_value are Python Any; PyVal.pynone models Python None. -/
structure FieldChange where
  field_path : String
  old_value : PyVal := PyVal.pynone
  new_value : PyVal := PyVal.pynone
  reducer_name : String
  reducer_params : List (String × PyVal) := []
  calculation_details : List (String × PyVal) := []
  deriving DecidableEq, Repr

/-- The audit capture used during a step.  The step pipeline constructs a
DatabaseAuditCapture with reducer_name set to "simulation_step"; the
add_reducer and add_trigger_fired methods modelled here are the
deduplicating overrides of DatabaseAuditCapture, which is the class the
step pipeline uses.  The wall-clock timestamps of the source capture are
not part of the model. -/
structure AuditCapture where
  reducer_name : String
  reducer_params : List (String × PyVal) := []
  field_changes : List FieldChange := []
  calculation_details : List (String × PyVal) := []
  reducer_sequence : List String := []
  triggers_fired : List String := []
  errors : List String := []
  deriving DecidableEq, Repr

/-- AuditCapture.record_change: append a FieldChange carrying the
capture's own reducer_name and reducer_params. -/
def AuditCapture.record_change (a : AuditCapture) (path : String)
    (old new : PyVal) (details : List (String × PyVal)) : AuditCapture :=
  { a with field_changes := a.field_changes ++
      [{ field_path := path, old_value := old, new_value := new,
         reducer_name := a.reducer_name, reducer_params := a.reducer_params,
         calculation_details := details }] }

/-- DatabaseAuditCapture.add_reducer: append to the sequence if absent. -/
def AuditCapture.add_reducer (a : AuditCapture) (name : String) : AuditCapture :=
  if name ∈ a.reducer_sequence then a
  else { a with reducer_sequence := a.reducer_sequence ++ [name] }

/-- DatabaseAuditCapture.add_trigger_fired: append if absent. -/
def AuditCapture.add_trigger_fired (a : AuditCapture) (name : String) : AuditCapture :=
  if name ∈ a.triggers_fired then a
  else { a with triggers_fired := a.triggers_fired ++ [name] }

/-- AuditCapture.add_error: append an error message. -/
def AuditCapture.add_error (a : AuditCapture) (msg : String) : AuditCapture :=
  { a with errors := a.errors ++ [msg] }

/-- AuditCapture.add_calculation_detail. -/
def AuditCapture.add_calculation_detail (a : AuditCapture) (key : String)
    (v : PyVal) : AuditCapture :=
  { a with calculation_details := aset a.calculation_details key v }

/-! ## Condition expressions (src/backend/app/simulation/trigger_conditions.py)

The source compiles the `when` string by regex substitution (date and
country access patterns, logical operators) and evaluates it with Python
eval in a restricted context; safe_getattr returns None when the country
or any path segment is missing, and any evaluation exception makes the
condition False.  The compiled form is modelled as an expression tree of
comparisons over operands, combined with the short-circuit and/or of
Python; a raw string whose compilation or evaluation fails wholesale is
modelled by a CondSpec with no compiled tree. -/

/-- A comparison operator of the condition DSL. -/
inductive CmpOp where
  | lt | le | gt | ge | eq | ne
  deriving DecidableEq, Repr

/-- An operand of a comparison: the bare timestep t (compiled to state.t),
a numeric literal, or a country field access country(CODE).slice.field. -/
inductive Operand where
  | tvar
  | lit (q : ℚ)
  | field (country : String) (path : List String)
  deriving DecidableEq, Repr

/-- A compiled condition expression. -/
inductive CondExpr where
  | cmp (op : CmpOp) (a b : Operand)
  | conj (a b : CondExpr)
  | disj (a b : CondExpr)
  deriving DecidableEq, Repr

/-- Read a nullable numeric field of a macro slice by attribute name.
Returns none when no attribute of that name exists. -/
def macroRead (m : MacroSlice) : String → Option (Option ℚ)
  | "gdp" => some m.gdp
  | "potential_gdp" => some m.potential_gdp
  | "inflation" => some m.inflation
  | "unemployment" => some m.unemployment
  | "output_gap" => some m.output_gap
  | "primary_balance" => some m.primary_balance
  | "debt_gdp" => some m.debt_gdp
  | "neutral_rate" => some m.neutral_rate
  | "policy_rate" => some m.policy_rate
  | "inflation_target" => some (some m.inflation_target)
  | "sfa" => some (some m.sfa)
  | _ => none

/-- Write a numeric field of a macro slice by attribute name. -/
def macroWrite (m : MacroSlice) (f : String) (q : ℚ) : Option MacroSlice :=
  match f with
  | "gdp" => some { m with gdp := some q }
  | "potential_gdp" => some { m with potential_gdp := some q }
  | "inflation" => some { m with inflation := some q }
  | "unemployment" => some { m with unemployment := some q }
  | "output_gap" => some { m with output_gap := some q }
  | "primary_balance" => some { m with primary_balance := some q }
  | "debt_gdp" => some { m with debt_gdp := some q }
  | "neutral_rate" => some { m with neutral_rate := some q }
  | "policy_rate" => some { m with policy_rate := some q }
  | "inflation_target" => some { m with inflation_target := q }
  | "sfa" => some { m with sfa := q }
  | _ => none

/-- Read a nullable numeric field of an external slice. -/
def externalRead (e : External) : String → Option (Option ℚ)
  | "fx_rate" => some e.fx_rate
  | "reserves_usd" => some e.reserves_usd
  | "current_account_gdp" => some e.current_account_gdp
  | "net_errors_omissions_gdp" => some (some e.net_errors_omissions_gdp)
  | _ => none

/-- Write a numeric field of an external slice. -/
def externalWrite (e : External) (f : String) (q : ℚ) : Option External :=
  match f with
  | "fx_rate" => some { e with fx_rate := some q }
  | "reserves_usd" => some { e with reserves_usd := some q }
  | "current_account_gdp" => some { e with current_account_gdp := some q }
  | "net_errors_omissions_gdp" => some { e with net_errors_omissions_gdp := q }
  | _ => none

/-- Read a nullable numeric field of a finance slice. -/
def financeRead (fi : Finance) : String → Option (Option ℚ)
  | "sovereign_yield" => some fi.sovereign_yield
  | "credit_spread" => some fi.credit_spread
  | "bank_tier1_ratio" => some fi.bank_tier1_ratio
  | "leverage_target" => some (some fi.leverage_target)
  | _ => none

/-- Write a numeric field of a finance slice. -/
def financeWrite (fi : Finance) (f : String) (q : ℚ) : Option Finance :=
  match f with
  | "sovereign_yield" => some { fi with sovereign_yield := some q }
  | "credit_spread" => some { fi with credit_spread := some q }
  | "bank_tier1_ratio" => some { fi with bank_tier1_ratio := some q }
  | "leverage_target" => some { fi with leverage_target := q }
  | _ => none

/-- Read a nullable numeric field of a trade slice. -/
def tradeRead (tr : TradeSlice) : String → Option (Option ℚ)
  | "exports_gdp" => some tr.exports_gdp
  | "imports_gdp" => some tr.imports_gdp
  | "tariff_mfn_avg" => some tr.tariff_mfn_avg
  | "ntm_index" => some tr.ntm_index
  | "terms_of_trade" => some (some tr.terms_of_trade)
  | _ => none

/-- Write a numeric field of a trade slice. -/
def tradeWrite (tr : TradeSlice) (f : String) (q : ℚ) : Option TradeSlice :=
  match f with
  | "exports_gdp" => some { tr with exports_gdp := some q }
  | "imports_gdp" => some { tr with imports_gdp := some q }
  | "tariff_mfn_avg" => some { tr with tariff_mfn_avg := some q }
  | "ntm_index" => some { tr with ntm_index := some q }
  | "terms_of_trade" => some { tr with terms_of_trade := q }
  | _ => none

/-- Read a nullable numeric field of an energy slice. -/
def energyRead (e : EnergyFood) : String → Option (Option ℚ)
  | "energy_stock_to_use" => some e.energy_stock_to_use
  | "food_price_index" => some e.food_price_index
  | "energy_price_index" => some e.energy_price_index
  | _ => none

/-- Write a numeric field of an energy slice. -/
def energyWrite (e : EnergyFood) (f : String) (q : ℚ) : Option EnergyFood :=
  match f with
  | "energy_stock_to_use" => some { e with energy_stock_to_use := some q }
  | "food_price_index" => some { e with food_price_index := some q }
  | "energy_price_index" => some { e with energy_price_index := some q }
  | _ => none

/-- Read a nullable numeric field of a security slice. -/
def securityRead (se : Security) : String → Option (Option ℚ)
  | "milex_gdp" => some se.milex_gdp
  | "personnel" => some se.personnel
  | "conflict_intensity" => some se.conflict_intensity
  | _ => none

/-- Write a numeric field of a security slice. -/
def securityWrite (se : Security) (f : String) (q : ℚ) : Option Security :=
  match f with
  | "milex_gdp" => some { se with milex_gdp := some q }
  | "personnel" => some { se with personnel := some q }
  | "conflict_intensity" => some { se with conflict_intensity := some q }
  | _ => none

/-- Read a nullable numeric field of a sentiment slice. -/
def sentimentRead (se : Sentiment) : String → Option (Option ℚ)
  | "gdelt_tone" => some se.gdelt_tone
  | "trends_salience" => some se.trends_salience
  | "policy_pressure" => some se.policy_pressure
  | "approval" => some se.approval
  | _ => none

/-- Write a numeric field of a sentiment slice. -/
def sentimentWrite (se : Sentiment) (f : String) (q : ℚ) : Option Sentiment :=
  match f with
  | "gdelt_tone" => some { se with gdelt_tone := some q }
  | "trends_salience" => some { se with trends_salience := some q }
  | "policy_pressure" => some { se with policy_pressure := some q }
  | "approval" => some { se with approval := some q }
  | _ => none

/-- Read a nullable numeric field of a country by slice and field
attribute names; the outer none means the attribute chain is missing. -/
def countryRead (c : CountryState) (sl f : String) : Option (Option ℚ) :=
  match sl with
  | "macro" => macroRead c.macroSlice f
  | "external" => externalRead c.external f
  | "finance" => financeRead c.finance f
  | "trade" => tradeRead c.trade f
  | "energy" => energyRead c.energy f
  | "security" => securityRead c.security f
  | "sentiment" => sentimentRead c.sentiment f
  | _ => none

/-- Write a numeric field of a country by slice and field names. -/
def countryWrite (c : CountryState) (sl f : String) (q : ℚ) : Option CountryState :=
  match sl with
  | "macro" => (macroWrite c.macroSlice f q).map (fun m => { c with macroSlice := m })
  | "external" => (externalWrite c.external f q).map (fun e => { c with external := e })
  | "finance" => (financeWrite c.finance f q).map (fun fi => { c with finance := fi })
  | "trade" => (tradeWrite c.trade f q).map (fun tr => { c with trade := tr })
  | "energy" => (energyWrite c.energy f q).map (fun e => { c with energy := e })
  | "security" => (securityWrite c.security f q).map (fun se => { c with security := se })
  | "sentiment" => (sentimentWrite c.sentiment f q).map (fun se => { c with sentiment := se })
  | _ => none

/-- safe_getattr over a country以 a dotted path: returns none when the
country is missing, the path is not a known slice.field chain, or the
field value is null.  The DSL accesses numeric cells through
slice.field chains; a path to a non-numeric target compares exactly like
a missing value in Python (equality False, inequality True, ordered
comparison TypeError), so both are modelled as none. -/
def country_field (countries : List (String × CountryState)) (code : String)
    (path : List String) : Option ℚ :=
  match alookup countries code with
  | none => none
  | some c =>
    match path with
    | [sl, f] => (countryRead c sl f).join
    | _ => none

/-- The value of an operand: a number, or none for Python None. -/
def operandVal (s : GlobalState) : Operand → Option ℚ
  | Operand.tvar => some (s.t : ℚ)
  | Operand.lit q => some q
  | Operand.field code path => country_field s.countries code path

/-- Python comparison semantics on possibly-missing numbers: ordered
comparisons with None raise TypeError (modelled as error); None equals
only None; inequality is the negation of equality. -/
def evalCmp (op : CmpOp) (a b : Option ℚ) : Except Unit Bool :=
  match op with
  | CmpOp.lt => match a, b with
    | some x, some y => Except.ok (decide (x < y))
    | _, _ => Except.error ()
  | CmpOp.le => match a, b with
    | some x, some y => Except.ok (decide (x ≤ y))
    | _, _ => Except.error ()
  | CmpOp.gt => match a, b with
    | some x, some y => Except.ok (decide (x > y))
    | _, _ => Except.error ()
  | CmpOp.ge => match a, b with
    | some x, some y => Except.ok (decide (x ≥ y))
    | _, _ => Except.error ()
  | CmpOp.eq => match a, b with
    | some x, some y => Except.ok (decide (x = y))
    | none, none => Except.ok true
    | _, _ => Except.ok false
  | CmpOp.ne => match a, b with
    | some x, some y => Except.ok (decide (x ≠ y))
    | none, none => Except.ok false
    | _, _ => Except.ok true

/-- Evaluate a compiled condition with Python short-circuit and/or. -/
def evalCond (s : GlobalState) : CondExpr → Except Unit Bool
  | CondExpr.cmp op a b => evalCmp op (operandVal s a) (operandVal s b)
  | CondExpr.conj a b =>
    match evalCond s a with
    | Except.error e => Except.error e
    | Except.ok false => Except.ok false
    | Except.ok true => evalCond s b
  | CondExpr.disj a b =>
    match evalCond s a with
    | Except.error e => Except.error e
    | Except.ok true => Except.ok true
    | Except.ok false => evalCond s b

/-- A condition as the source holds it: the raw `when` text together with
its compiled expression; compiled = none models a string whose
compilation or evaluation raises wholesale. -/
structure CondSpec where
  text : String
  compiled : Option CondExpr
  deriving DecidableEq, Repr

/-- Python `not condition.strip()`: the string is empty or consists of
whitespace only (modelled over the space/tab/newline whitespace class of
Char.isWhitespace). -/
def isBlank (s : String) : Bool := s.data.all (fun ch => ch.isWhitespace)

/-- eval_condition: an empty or all-whitespace expression is True; an
expression that fails to evaluate is False; otherwise the compiled
expression is evaluated, any exception yielding False. -/
def eval_condition (s : GlobalState) (c : CondSpec) : Bool :=
  if isBlank c.text then true
  else
    match c.compiled with
    | none => false
    | some e =>
      match evalCond s e with
      | Except.ok b => b
      | Except.error _ => false

/-! ## Trigger definitions (src/db/models/state.py) -/

/-- Policy parameter modification (class PolicyPatch).  The source stores
the dotted path as a string and splits it on dots; it is modelled as the
list of segments.  op is one of set/add/mul (a pydantic Literal). -/
structure PolicyPatch where
  path : List String
  op : String
  value : PyVal
  deriving DecidableEq, Repr

/-- Reducer implementation override (class ReducerOverride). -/
structure ReducerOverride where
  target : String
  impl_name : String
  deriving DecidableEq, Repr

/-- Network/matrix modification (class NetworkRewrite).  The pydantic
field is named edits; note that apply_network_rewrite reads the
non-existent attribute network_edits instead. -/
structure NetworkRewrite where
  layer : String
  edits : List (String × String × ℚ)
  deriving DecidableEq, Repr

/-- Event injection (class EventInject). -/
structure EventInject where
  kind : String
  payload : List (String × PyVal)
  deriving DecidableEq, Repr

/-- Condition for trigger activation (class TriggerCondition). -/
structure TriggerCondition where
  whenSpec : Option CondSpec := none
  once : Bool := true
  deriving DecidableEq, Repr

/-- Actions to execute when a trigger fires (class TriggerAction). -/
structure TriggerAction where
  patches : List PolicyPatch := []
  overrides : List ReducerOverride := []
  network_rewrites : List NetworkRewrite := []
  events : List EventInject := []
  deriving DecidableEq, Repr

/-- Complete trigger definition (class Trigger). -/
structure Trigger where
  name : String
  condition : TriggerCondition
  action : TriggerAction := {}
  expires_after_turns : Option ℕ := none
  description : Option String := none
  deriving DecidableEq, Repr

/-- Python `trigger.condition.when or ""`: a missing condition string
behaves as the empty string (always true). -/
def condWhen (c : TriggerCondition) : CondSpec :=
  match c.whenSpec with
  | none => { text := "", compiled := none }
  | some w => w

/-! ## Trigger actions (src/backend/app/simulation/trigger_actions.py) -/

/-- Join path segments back into the dotted string recorded in audits. -/
def pathStr (parts : List String) : String := String.intercalate "." parts

/-- Extract a number from a patch value. -/
def valNum : PyVal → Option ℚ
  | PyVal.num q => some q
  | _ => none

/-- Outcome of resolving and writing a patch target. -/
inductive PatchOutcome where
  | ok (s : GlobalState) (old new : PyVal)
  | err (msg : String)
  deriving DecidableEq, Repr

/-- The error message template of the invalid-path branch. -/
def invalidPathMsg (parts : List String) (missing : String) : String :=
  "Invalid patch path: " ++ pathStr parts ++ " (missing " ++ missing ++ ")"

/-- The error message template of the caught-exception branch of
apply_policy_patch. -/
def patchFailMsg (parts : List String) (e : String) : String :=
  "Failed to apply policy patch " ++ pathStr parts ++ ": " ++ e

/-- Python truthiness of an embedded value: None, 0, 0.0, False, the
empty string and empty containers are falsy. -/
def pyTruthy : PyVal → Bool
  | PyVal.num q => decide (q ≠ 0)
  | PyVal.str s => decide (s ≠ "")
  | PyVal.bool b => b
  | PyVal.pynone => false
  | PyVal.strlist xs => decide (xs ≠ [])
  | PyVal.natmap xs => decide (xs ≠ [])

/-- Python string repetition s * n (negative counts yield the empty
string). -/
def strRepeat (s : String) (n : ℤ) : String :=
  String.join (List.replicate n.toNat s)

/-- Python list repetition xs * n. -/
def listRepeat (xs : List String) (n : ℤ) : List String :=
  (List.replicate n.toNat xs).flatten

/-- Python addition over embedded values: numbers add (bools count as
0/1), strings and lists concatenate; every other pairing raises
TypeError (none). -/
def pyAdd : PyVal → PyVal → Option PyVal
  | PyVal.num a, PyVal.num b => some (PyVal.num (a + b))
  | PyVal.num a, PyVal.bool b => some (PyVal.num (a + if b then 1 else 0))
  | PyVal.bool a, PyVal.num b => some (PyVal.num ((if a then 1 else 0) + b))
  | PyVal.bool a, PyVal.bool b =>
    some (PyVal.num ((if a then (1 : ℚ) else 0) + (if b then 1 else 0)))
  | PyVal.str a, PyVal.str b => some (PyVal.str (a ++ b))
  | PyVal.strlist a, PyVal.strlist b => some (PyVal.strlist (a ++ b))
  | _, _ => none

/-- Python multiplication over embedded values: numbers multiply (bools
count as 0/1), strings and lists repeat by integral numerics and bools;
every other pairing raises TypeError (none).  The embedding conflates
Python ints and floats in one numeric type, so an integral numeric is
read as a Python int here: a float operand would raise TypeError in the
source where the model repeats. -/
def pyMul : PyVal → PyVal → Option PyVal
  | PyVal.num a, PyVal.num b => some (PyVal.num (a * b))
  | PyVal.num a, PyVal.bool b => some (PyVal.num (a * if b then 1 else 0))
  | PyVal.bool a, PyVal.num b => some (PyVal.num ((if a then 1 else 0) * b))
  | PyVal.bool a, PyVal.bool b =>
    some (PyVal.num ((if a then (1 : ℚ) else 0) * (if b then 1 else 0)))
  | PyVal.str a, PyVal.num b =>
    if b.den = 1 then some (PyVal.str (strRepeat a b.num)) else none
  | PyVal.num a, PyVal.str b =>
    if a.den = 1 then some (PyVal.str (strRepeat b a.num)) else none
  | PyVal.str a, PyVal.bool b => some (PyVal.str (if b then a else ""))
  | PyVal.bool b, PyVal.str a => some (PyVal.str (if b then a else ""))
  | PyVal.strlist a, PyVal.num b =>
    if b.den = 1 then some (PyVal.strlist (listRepeat a b.num)) else none
  | PyVal.num a, PyVal.strlist b =>
    if a.den = 1 then some (PyVal.strlist (listRepeat b a.num)) else none
  | PyVal.strlist a, PyVal.bool b => some (PyVal.strlist (if b then a else []))
  | PyVal.bool b, PyVal.strlist a => some (PyVal.strlist (if b then a else []))
  | _, _ => none

/-- The computed value of a patch operation before the store, or the
way it failed. -/
inductive CalcOut where
  | ok (r : PyVal)
  | typeErr
  | unknownOp
  deriving DecidableEq, Repr

/-- The operation step of apply_policy_patch: set takes the raw value;
add computes (old or 0) + value and mul computes (old or 1) * value
with Python or-truthiness on the old value; failed arithmetic is the
caught TypeError. -/
def patchCalc (op : String) (old : PyVal) (v : PyVal) : CalcOut :=
  if op = "set" then CalcOut.ok v
  else if op = "add" then
    match pyAdd (if pyTruthy old then old else PyVal.num 0) v with
    | some r => CalcOut.ok r
    | none => CalcOut.typeErr
  else if op = "mul" then
    match pyMul (if pyTruthy old then old else PyVal.num 1) v with
    | some r => CalcOut.ok r
    | none => CalcOut.typeErr
  else CalcOut.unknownOp

/-- The distinguished outcome of a patch whose store the source
performs but whose result the typed model cannot hold: pydantic
assigns without validation, so a computed value of the wrong shape is
written into a typed slot (or a container old/new value would have to
be recorded in the audit), producing a state outside the typed schema.
The model maps exactly these stores to this recorded error; every
other patch outcome (including every successful write of a
schema-shaped value) is modelled faithfully. -/
def untypedStoreMsg (parts : List String) : String :=
  "Unmodeled untyped store at " ++ pathStr parts

/-- Apply a patch operation to a nullable numeric cell.  A non-numeric
computed value is stored unvalidated by the source (see
untypedStoreMsg); failed arithmetic is the caught TypeError. -/
def patchOpNum (parts : List String) (op : String) (old : Option ℚ)
    (v : PyVal) : Except String ℚ :=
  match patchCalc op (optToVal old) v with
  | CalcOut.ok (PyVal.num q) => Except.ok q
  | CalcOut.ok _ => Except.error (untypedStoreMsg parts)
  | CalcOut.typeErr => Except.error (patchFailMsg parts ("TypeError"))
  | CalcOut.unknownOp => Except.error ("Unknown patch operation: " ++ op)

/-- Apply a patch operation to a writable integer attribute (t,
rng_seed): only an integral numeric result fits the typed slot. -/
def intCellPatch (parts : List String) (op : String) (old : ℤ)
    (v : PyVal) : Except String ℤ :=
  match patchCalc op (PyVal.num (old : ℚ)) v with
  | CalcOut.ok (PyVal.num q) =>
    if q.den = 1 then Except.ok q.num else Except.error (untypedStoreMsg parts)
  | CalcOut.ok _ => Except.error (untypedStoreMsg parts)
  | CalcOut.typeErr => Except.error (patchFailMsg parts ("TypeError"))
  | CalcOut.unknownOp => Except.error ("Unknown patch operation: " ++ op)

/-- Apply a patch operation to a writable string attribute (base_ccy, a
country name): only a string result fits the typed slot. -/
def strCellPatch (parts : List String) (op : String) (old : String)
    (v : PyVal) : Except String String :=
  match patchCalc op (PyVal.str old) v with
  | CalcOut.ok (PyVal.str r) => Except.ok r
  | CalcOut.ok _ => Except.error (untypedStoreMsg parts)
  | CalcOut.typeErr => Except.error (patchFailMsg parts ("TypeError"))
  | CalcOut.unknownOp => Except.error ("Unknown patch operation: " ++ op)

/-- The error of a patch whose final write target resolves to a missing
attribute/key (old value None): the source computes the new value first
(so an unknown op or failed arithmetic report those), then fails the
store with the cannot-set message. -/
def cannotSetMsg (parts : List String) (op : String) (f : String)
    (v : PyVal) : String :=
  match patchCalc op PyVal.pynone v with
  | CalcOut.ok _ => "Cannot set field " ++ f ++ " on target at " ++ pathStr parts
  | CalcOut.typeErr => patchFailMsg parts ("TypeError")
  | CalcOut.unknownOp => "Unknown patch operation: " ++ op

/-- The error of a patch whose final target holds a dict or a model
object: set stores the raw value (untyped, see untypedStoreMsg); add
and mul on a truthy container raise TypeError; on a falsy (empty or
absent) one they compute from the integer base and then store untyped
or raise. -/
def containerPatchMsg (parts : List String) (op : String) (truthy : Bool)
    (v : PyVal) : String :=
  if op = "set" then untypedStoreMsg parts
  else if op = "add" ∨ op = "mul" then
    if truthy then patchFailMsg parts ("TypeError")
    else
      match patchCalc op PyVal.pynone v with
      | CalcOut.ok _ => untypedStoreMsg parts
      | _ => patchFailMsg parts ("TypeError")
  else "Unknown patch operation: " ++ op

/-- The error of a patch whose final target holds one of the event
lists: list concatenation and repetition succeed where dicts raise, but
the stored lists and the audited old value are containers, so every
outcome is an error in the model (see untypedStoreMsg). -/
def listContainerMsg (parts : List String) (op : String) (nonempty : Bool)
    (v : PyVal) : String :=
  if op = "set" then untypedStoreMsg parts
  else if op = "add" then
    if nonempty then
      match v with
      | PyVal.strlist _ => untypedStoreMsg parts
      | _ => patchFailMsg parts ("TypeError")
    else
      match patchCalc ("add") PyVal.pynone v with
      | CalcOut.ok _ => untypedStoreMsg parts
      | _ => patchFailMsg parts ("TypeError")
  else if op = "mul" then
    if nonempty then
      match v with
      | PyVal.num q =>
        if q.den = 1 then untypedStoreMsg parts
        else patchFailMsg parts ("TypeError")
      | PyVal.bool _ => untypedStoreMsg parts
      | _ => patchFailMsg parts ("TypeError")
    else
      match patchCalc ("mul") PyVal.pynone v with
      | CalcOut.ok _ => untypedStoreMsg parts
      | _ => patchFailMsg parts ("TypeError")
  else "Unknown patch operation: " ++ op

/-- The names of the matrix attributes reachable by a three-segment
patch path. -/
def matrixLayerNames : List String :=
  ["trade_matrix", "interbank_matrix", "alliance_graph", "sanctions"]

/-- Read a matrix attribute of the global state by name. -/
def getMatrixAttr (s : GlobalState) (layer : String) : NetMatrix :=
  if layer = "trade_matrix" then s.trade_matrix
  else if layer = "interbank_matrix" then s.interbank_matrix
  else if layer = "alliance_graph" then s.alliance_graph
  else s.sanctions

/-- Replace a matrix attribute of the global state by name. -/
def setMatrixAttr (s : GlobalState) (layer : String) (m : NetMatrix) : GlobalState :=
  if layer = "trade_matrix" then { s with trade_matrix := m }
  else if layer = "interbank_matrix" then { s with interbank_matrix := m }
  else if layer = "alliance_graph" then { s with alliance_graph := m }
  else { s with sanctions := m }

/-- Patch a key of one regimes parameter bag (the dict branch of the
path walk): the bag is an untyped dict, so every computed value is
storable and a missing key is created; failed arithmetic is the caught
TypeError. -/
def bagPatch (s : GlobalState) (parts : List String) (key : String)
    (op : String) (v : PyVal)
    (get : RegimeParams → List (String × PyVal))
    (put : RegimeParams → List (String × PyVal) → RegimeParams) : PatchOutcome :=
  match patchCalc op ((alookup (get s.rules.regimes) key).getD PyVal.pynone) v with
  | CalcOut.ok r =>
    PatchOutcome.ok
      { s with rules := { s.rules with
          regimes := put s.rules.regimes (aset (get s.rules.regimes) key r) } }
      ((alookup (get s.rules.regimes) key).getD PyVal.pynone) r
  | CalcOut.typeErr => PatchOutcome.err (patchFailMsg parts ("TypeError"))
  | CalcOut.unknownOp => PatchOutcome.err ("Unknown patch operation: " ++ op)

/-- Read one of the seven regime parameter bags by attribute name. -/
def regimeBagOf (r : RegimeParams) : String → Option (List (String × PyVal))
  | "monetary" => some r.monetary
  | "fx" => some r.fx
  | "fiscal" => some r.fiscal
  | "trade" => some r.trade
  | "security" => some r.security
  | "labor" => some r.labor
  | "sentiment" => some r.sentiment
  | _ => none

/-- The attribute names of the seven country slices. -/
def sliceNames : List String :=
  ["macro", "external", "finance", "trade", "energy", "security", "sentiment"]

/-- Resolve a dotted patch path and write the new value, mirroring the
getattr/dict walk of apply_policy_patch over the whole typed schema:
hasattr walks model attributes (t, base_ccy, rules, rng_seed, regimes,
the seven bags, invariants, countries, a country and its name and
slices and their fields), dict access walks countries, the matrix
layers and their rows, io_coefficients, commodity_prices, the regime
bags, invariants and events.  A failed navigation step records the
invalid-path message; a final segment that resolves to nothing computes
the operation and then records the cannot-set message; a store the
typed model cannot hold records the untypedStoreMsg error (the source
stores it unvalidated).  Two approximations, both confined to outcomes
that are errors or untyped stores in the source as well: the hasattr
probes can also find methods or numeric components of leaf values
(e.g. get on a dict, denominator on an int), whose final writes raise
and are caught with a different message than the one modelled here;
and paths deeper than the schema (the final catch-all) always fail in
the source, with the invalid-path message standing in for the exact
one. -/
def patchWrite (s : GlobalState) (parts : List String) (op : String)
    (v : PyVal) : PatchOutcome :=
  match parts with
  | ["countries", cname, sl, f] =>
    (match alookup s.countries cname with
     | none => PatchOutcome.err (invalidPathMsg parts cname)
     | some c =>
       if (countryRead c sl f).isSome then
         -- the attribute exists: compute the new value per op and set it
         (match patchOpNum parts op ((countryRead c sl f).join) v with
          | Except.error m => PatchOutcome.err m
          | Except.ok q =>
            (match countryWrite c sl f q with
             | some c2 => PatchOutcome.ok
                 { s with countries := aset s.countries cname c2 }
                 (optToVal ((countryRead c sl f).join)) (PyVal.num q)
             | none => PatchOutcome.err (patchFailMsg parts ("unsupported write"))))
       else if sl ∈ sliceNames ∨ sl = "name" then
         -- the slice (or the name string) exists but the final field
         -- does not: old_value is None, the new value is computed, and
         -- the set then fails (not an attribute, not a dict)
         PatchOutcome.err (cannotSetMsg parts op f v)
       else
         -- the slice name itself is not an attribute of the country
         PatchOutcome.err (invalidPathMsg parts sl))
  | ["rules", "regimes", bag, key] =>
    if bag = "monetary" then
      bagPatch s parts key op v (fun r => r.monetary) (fun r l => { r with monetary := l })
    else if bag = "fx" then
      bagPatch s parts key op v (fun r => r.fx) (fun r l => { r with fx := l })
    else if bag = "fiscal" then
      bagPatch s parts key op v (fun r => r.fiscal) (fun r l => { r with fiscal := l })
    else if bag = "trade" then
      bagPatch s parts key op v (fun r => r.trade) (fun r l => { r with trade := l })
    else if bag = "security" then
      bagPatch s parts key op v (fun r => r.security) (fun r l => { r with security := l })
    else if bag = "labor" then
      bagPatch s parts key op v (fun r => r.labor) (fun r l => { r with labor := l })
    else if bag = "sentiment" then
      bagPatch s parts key op v (fun r => r.sentiment) (fun r l => { r with sentiment := l })
    else PatchOutcome.err (invalidPathMsg parts bag)
  | ["countries", cname, x] =>
    (match alookup s.countries cname with
     | none => PatchOutcome.err (invalidPathMsg parts cname)
     | some c =>
       if x = "name" then
         -- the one writable string attribute of a country
         (match strCellPatch parts op c.name v with
          | Except.error m => PatchOutcome.err m
          | Except.ok nm => PatchOutcome.ok
              { s with countries := aset s.countries cname { c with name := nm } }
              (PyVal.str c.name) (PyVal.str nm))
       else if x ∈ sliceNames then
         -- replacing a whole slice object: the store is untyped
         PatchOutcome.err (containerPatchMsg parts op true v)
       else
         PatchOutcome.err (cannotSetMsg parts op x v))
  | ["rules", ry, rz] =>
    if ry = "regimes" then
      (match regimeBagOf s.rules.regimes rz with
       | some l => PatchOutcome.err (containerPatchMsg parts op (decide (l ≠ [])) v)
       | none => PatchOutcome.err (cannotSetMsg parts op rz v))
    else if ry = "invariants" then
      -- a bool cell of the invariants dict: only a raw bool store fits
      -- the typed slot
      (if op = "set" then
        match v with
        | PyVal.bool b2 =>
          PatchOutcome.ok
            { s with rules := { s.rules with
                invariants := aset s.rules.invariants rz b2 } }
            ((alookup s.rules.invariants rz).elim PyVal.pynone PyVal.bool)
            (PyVal.bool b2)
        | _ => PatchOutcome.err (untypedStoreMsg parts)
      else
        -- bools are Python ints for arithmetic: every computed add/mul
        -- result is numeric or a string/list, stored untyped
        PatchOutcome.err (containerPatchMsg parts op false v))
    else if ry = "rng_seed" then
      PatchOutcome.err (cannotSetMsg parts op rz v)
    else PatchOutcome.err (invalidPathMsg parts ry)
  | [layer, rowk, colk] =>
    if layer ∈ matrixLayerNames then
      (match alookup (getMatrixAttr s layer) rowk with
       | none => PatchOutcome.err (invalidPathMsg parts rowk)
       | some row =>
         (match patchOpNum parts op (alookup row colk) v with
          | Except.error m => PatchOutcome.err m
          | Except.ok q => PatchOutcome.ok
              (setMatrixAttr s layer (aset (getMatrixAttr s layer) rowk (aset row colk q)))
              (optToVal (alookup row colk)) (PyVal.num q)))
    else if layer = "io_coefficients" then
      (match alookup s.io_coefficients rowk with
       | none => PatchOutcome.err (invalidPathMsg parts rowk)
       | some row =>
         (match patchOpNum parts op (alookup row colk) v with
          | Except.error m => PatchOutcome.err m
          | Except.ok q => PatchOutcome.ok
              { s with io_coefficients := aset s.io_coefficients rowk (aset row colk q) }
              (optToVal (alookup row colk)) (PyVal.num q)))
    else if layer = "commodity_prices" then
      (match alookup s.commodity_prices rowk with
       | none => PatchOutcome.err (invalidPathMsg parts rowk)
       | some _ => PatchOutcome.err (cannotSetMsg parts op colk v))
    else if layer = "events" then
      (if rowk = "pending" ∨ rowk = "processed" then
        PatchOutcome.err (cannotSetMsg parts op colk v)
      else PatchOutcome.err (invalidPathMsg parts rowk))
    else if layer = "t" ∨ layer = "base_ccy" then
      PatchOutcome.err (invalidPathMsg parts rowk)
    else PatchOutcome.err (invalidPathMsg parts layer)
  | ["countries", cname] =>
    -- a dict item holding a whole country: the raw store is untyped
    (match alookup s.countries cname with
     | some _ => PatchOutcome.err (containerPatchMsg parts op true v)
     | none => PatchOutcome.err (containerPatchMsg parts op false v))
  | [x, y] =>
    if x = "rules" then
      (if y = "rng_seed" then
        match intCellPatch parts op s.rules.rng_seed v with
        | Except.error m => PatchOutcome.err m
        | Except.ok n => PatchOutcome.ok
            { s with rules := { s.rules with rng_seed := n } }
            (PyVal.num (s.rules.rng_seed : ℚ)) (PyVal.num (n : ℚ))
      else if y = "regimes" then
        PatchOutcome.err (containerPatchMsg parts op true v)
      else if y = "invariants" then
        PatchOutcome.err (containerPatchMsg parts op (decide (s.rules.invariants ≠ [])) v)
      else PatchOutcome.err (cannotSetMsg parts op y v))
    else if x = "commodity_prices" then
      (match patchOpNum parts op (alookup s.commodity_prices y) v with
       | Except.error m => PatchOutcome.err m
       | Except.ok q => PatchOutcome.ok
           { s with commodity_prices := aset s.commodity_prices y q }
           (optToVal (alookup s.commodity_prices y)) (PyVal.num q))
    else if x ∈ matrixLayerNames then
      (match alookup (getMatrixAttr s x) y with
       | some row => PatchOutcome.err (containerPatchMsg parts op (decide (row ≠ [])) v)
       | none => PatchOutcome.err (containerPatchMsg parts op false v))
    else if x = "io_coefficients" then
      (match alookup s.io_coefficients y with
       | some row => PatchOutcome.err (containerPatchMsg parts op (decide (row ≠ [])) v)
       | none => PatchOutcome.err (containerPatchMsg parts op false v))
    else if x = "events" then
      (if y = "pending" then
        PatchOutcome.err (listContainerMsg parts op (decide (s.events.pending ≠ [])) v)
      else if y = "processed" then
        PatchOutcome.err (listContainerMsg parts op (decide (s.events.processed ≠ [])) v)
      else PatchOutcome.err (containerPatchMsg parts op false v))
    else if x = "t" ∨ x = "base_ccy" then
      PatchOutcome.err (cannotSetMsg parts op y v)
    else PatchOutcome.err (invalidPathMsg parts x)
  | [f] =>
    if f = "t" then
      (match intCellPatch parts op s.t v with
       | Except.error m => PatchOutcome.err m
       | Except.ok n => PatchOutcome.ok { s with t := n }
           (PyVal.num (s.t : ℚ)) (PyVal.num (n : ℚ)))
    else if f = "base_ccy" then
      (match strCellPatch parts op s.base_ccy v with
       | Except.error m => PatchOutcome.err m
       | Except.ok c => PatchOutcome.ok { s with base_ccy := c }
           (PyVal.str s.base_ccy) (PyVal.str c))
    else if f = "countries" then
      PatchOutcome.err (containerPatchMsg parts op (decide (s.countries ≠ [])) v)
    else if f ∈ matrixLayerNames then
      PatchOutcome.err (containerPatchMsg parts op (decide (getMatrixAttr s f ≠ [])) v)
    else if f = "io_coefficients" then
      PatchOutcome.err (containerPatchMsg parts op (decide (s.io_coefficients ≠ [])) v)
    else if f = "commodity_prices" then
      PatchOutcome.err (containerPatchMsg parts op (decide (s.commodity_prices ≠ [])) v)
    else if f = "rules" ∨ f = "events" then
      PatchOutcome.err (containerPatchMsg parts op true v)
    else
      PatchOutcome.err (cannotSetMsg parts op f v)
  | _ => PatchOutcome.err (invalidPathMsg parts (pathStr parts))

/-- apply_policy_patch: resolve the path, apply the operation, write the
cell and record a FieldChange; any failure records an error instead.
The recorded change carries the capture's own reducer_name and
reducer_params (record_change copies them), and the calculation_details
written by the source. -/
def apply_policy_patch (s : GlobalState) (p : PolicyPatch) (a : AuditCapture) :
    GlobalState × AuditCapture :=
  match patchWrite s p.path p.op p.value with
  | PatchOutcome.err m => (s, a.add_error m)
  | PatchOutcome.ok s2 old newv =>
    (s2, a.record_change (pathStr p.path) old newv
      [("trigger_action", PyVal.str ("policy_patch")),
       ("operation", PyVal.str p.op),
       ("patch_value", p.value)])

/-- apply_reducer_override.  The source executes
`if "rules" not in state: state["rules"] = ...`, treating the typed
GlobalState as a dict: membership testing iterates the model's (field,
value) pairs so the string "rules" is never a member, and the item
assignment then raises TypeError (the model does not support item
assignment).  The surrounding try/except records the failure, so the
override never writes anything and never records a FieldChange.  The
source message interpolates str(e); the model reproduces it without the
quote characters. -/
def apply_reducer_override (s : GlobalState) (ov : ReducerOverride)
    (a : AuditCapture) : GlobalState × AuditCapture :=
  (s, a.add_error ("Failed to apply reducer override " ++ ov.target ++
      ": GlobalState object does not support item assignment"))

/-- apply_network_rewrite.  For the trade/alliances/sanctions/interbank
layers the source calls state.get(...), but the typed GlobalState has no
get method, so AttributeError is raised before any write; for the energy
layer the dict-membership test succeeds vacuously and the item
assignment raises TypeError.  (Even past that point, the source reads
rewrite.network_edits while the pydantic field is named edits.)  The
try/except records the failure, so no matrix cell is ever written and
no FieldChange is recorded; an unknown layer records the unknown-layer
error without raising. -/
def apply_network_rewrite (s : GlobalState) (rw : NetworkRewrite)
    (a : AuditCapture) : GlobalState × AuditCapture :=
  if rw.layer = "trade" ∨ rw.layer = "alliances" ∨ rw.layer = "sanctions" ∨
     rw.layer = "interbank" then
    (s, a.add_error ("Failed to apply network rewrite for " ++ rw.layer ++
        ": GlobalState object has no attribute get"))
  else if rw.layer = "energy" then
    (s, a.add_error ("Failed to apply network rewrite for " ++ rw.layer ++
        ": GlobalState object does not support item assignment"))
  else
    (s, a.add_error ("Unknown network layer: " ++ rw.layer))

/-- inject_event.  The source executes `if "events" not in state:
state["events"] = ...`; the membership test is vacuously false on the
typed model, so the item assignment raises TypeError and the try/except
records the failure: no event is ever appended. -/
def inject_event (s : GlobalState) (ev : EventInject) (a : AuditCapture) :
    GlobalState × AuditCapture :=
  (s, a.add_error ("Failed to inject event " ++ ev.kind ++
      ": GlobalState object does not support item assignment"))

/-- apply_trigger: execute all four action kinds in order, then record
the per-trigger actions_applied calculation detail.  The per-action
functions catch their own exceptions, so the function returns True. -/
def apply_trigger (s : GlobalState) (tr : Trigger) (a : AuditCapture) :
    GlobalState × AuditCapture × Bool :=
  let sa1 := tr.action.patches.foldl
      (fun sa p => apply_policy_patch sa.1 p sa.2) (s, a)
  let sa2 := tr.action.overrides.foldl
      (fun sa ov => apply_reducer_override sa.1 ov sa.2) sa1
  let sa3 := tr.action.network_rewrites.foldl
      (fun sa rw => apply_network_rewrite sa.1 rw sa.2) sa2
  let sa4 := tr.action.events.foldl
      (fun sa ev => inject_event sa.1 ev sa.2) sa3
  let a5 := sa4.2.add_calculation_detail ("trigger_" ++ tr.name ++ "_actions")
      (PyVal.natmap
        [("patches", tr.action.patches.length),
         ("overrides", tr.action.overrides.length),
         ("network_rewrites", tr.action.network_rewrites.length),
         ("events", tr.action.events.length)])
  (sa4.1, a5, true)

/-! ## Trigger engine (src/backend/app/simulation/triggers.py) -/

/-- process_triggers: evaluate each trigger in list order against the
given state, skipping once-only triggers already in the fired set;
apply firing triggers to the same state; return the new state, the
newly fired names, the updated fired set and the audit. -/
def process_triggers (s : GlobalState) (triggers : List Trigger)
    (fired : List String) (a : AuditCapture) :
    GlobalState × List String × List String × AuditCapture :=
  triggers.foldl
    (fun acc tr =>
      let (st, newly, fset, au) := acc
      if tr.condition.once ∧ tr.name ∈ fset then acc
      else if eval_condition st (condWhen tr.condition) then
        let (st2, au2, success) := apply_trigger st tr au
        if success then
          let fset2 := if tr.condition.once ∧ tr.name ∉ fset then
              fset ++ [tr.name] else fset
          (st2, newly ++ [tr.name], fset2, au2.add_trigger_fired tr.name)
        else (st2, newly, fset, au2)
      else acc)
    (s, [], fired, a)

/-- expire_triggers: collect the names of fired triggers whose
expires_after_turns has elapsed relative to the current state.t
(Python computes state.t - fired_at as a signed integer), then pop them
from the fire-turn map.  The source mutates the dict in place and
returns only the names; the model returns both. -/
def expire_triggers (s : GlobalState) (triggers : List Trigger)
    (fired_times : List (String × ℤ)) : List String × List (String × ℤ) :=
  let expired := (triggers.filter (fun tr =>
      match tr.expires_after_turns, alookup fired_times tr.name with
      | some n, some f => decide ((s.t : ℤ) - f ≥ (n : ℤ))
      | _, _ => false)).map (fun tr => tr.name)
  (expired, expired.foldl (fun m nm => adel m nm) fired_times)

/-! ## Reducers (src/backend/app/simulation/reducers.py) -/

/-- The audit path of a country's policy rate. -/
def policyRatePath (c : CountryState) : String :=
  "countries." ++ c.name ++ ".macro.policy_rate"

/-- taylor_rule: Federal Reserve Taylor rule with regime parameters.
Gains come from the monetary regime bag with the given defaults; when
inflation, output_gap and neutral_rate are all present the rule value
is computed with a zero lower bound, otherwise the fallback is the
current policy rate with None (and 0.0, by Python or-truthiness)
replaced by 0.02. -/
def taylor_rule (m : MacroSlice) (regimes : RegimeParams)
    (phi_pi : ℚ := 1/2) (phi_y : ℚ := 1/2) : ℚ :=
  let pp := bagGetNum regimes.monetary ("phi_pi") phi_pi
  let py := bagGetNum regimes.monetary ("phi_y") phi_y
  match m.inflation, m.output_gap, m.neutral_rate with
  | some infl, some gap, some nr =>
    max 0 (nr + infl + pp * (infl - m.inflation_target) + py * gap)
  | _, _, _ => pyOrElse m.policy_rate (1/50)

/-- monetary_policy_taylor: if any already-recorded FieldChange targets
this country's policy rate and some trigger fired this step, record a
single skip marker and return; otherwise fill the output_gap and
neutral_rate defaults in place (the inflation_target null-check of the
source is dead code since that field is non-nullable), evaluate the
Taylor rule, and record/apply the update only when it moves the rate by
more than 1e-4 from the old rate (old rate = policy_rate with None or
0.0 replaced by 0.02). -/
def monetary_policy_taylor (c : CountryState) (regimes : RegimeParams)
    (a : AuditCapture) : CountryState × AuditCapture :=
  let path := policyRatePath c
  if a.triggers_fired ≠ [] ∧ a.field_changes.any (fun fc => fc.field_path = path) then
    (c, a.record_change (path ++ "_taylor_rule_skipped") PyVal.pynone PyVal.pynone
      [("reason", PyVal.str ("Policy rate modified by trigger, Taylor rule skipped")),
       ("trigger_set_value", optToVal c.macroSlice.policy_rate),
       ("triggers_fired", PyVal.strlist a.triggers_fired)])
  else
    let old_rate := pyOrElse c.macroSlice.policy_rate (1/50)
    let m1 := { c.macroSlice with
        output_gap := some ((c.macroSlice.output_gap).getD 0),
        neutral_rate := some ((c.macroSlice.neutral_rate).getD (1/40)) }
    let c1 := { c with macroSlice := m1 }
    let new_rate := taylor_rule c1.macroSlice regimes
    if |old_rate - new_rate| > 1/10000 then
      ({ c1 with macroSlice := { m1 with policy_rate := some new_rate } },
       a.record_change path (PyVal.num old_rate) (PyVal.num new_rate)
        [("rule", PyVal.str ("taylor")),
         ("phi_pi", PyVal.num (bagGetNum regimes.monetary ("phi_pi") (1/2))),
         ("phi_y", PyVal.num (bagGetNum regimes.monetary ("phi_y") (1/2))),
         ("inflation", optToVal m1.inflation),
         ("inflation_target", PyVal.num m1.inflation_target),
         ("output_gap", optToVal m1.output_gap),
         ("neutral_rate", optToVal m1.neutral_rate)])
    else (c1, a)

/-- monetary_policy_fx_peg: adjust the policy rate to defend a peg; the
adjustment detail is 0.0 when the fx rate is unknown (the source reads
it from locals in that branch). -/
def monetary_policy_fx_peg (c : CountryState) (regimes : RegimeParams)
    (a : AuditCapture) : CountryState × AuditCapture :=
  let target := bagGetNum regimes.monetary ("peg_target") 1
  let old_rate := c.macroSlice.policy_rate
  let adjInfo : ℚ × ℚ :=
    match c.external.fx_rate with
    | some fxr =>
      let adjustment := bagGetNum regimes.monetary ("peg_strength") 2 * (fxr - target)
      (max 0 (pyOrElse old_rate (1/50) + adjustment), adjustment)
    | none => (pyOrElse old_rate (1/50), 0)
  let new_rate := adjInfo.1
  if old_rate ≠ some new_rate then
    ({ c with macroSlice := { c.macroSlice with policy_rate := some new_rate } },
     a.record_change (policyRatePath c) (optToVal old_rate) (PyVal.num new_rate)
      [("rule", PyVal.str ("fx_peg")),
       ("peg_target", PyVal.num target),
       ("fx_rate", optToVal c.external.fx_rate),
       ("adjustment", PyVal.num adjInfo.2)])
  else (c, a)

/-- update_output_gap: requires gdp and potential_gdp; applies the demand
shock and records the new gap.  (potential_gdp = 0 raises
ZeroDivisionError in Python, caught at the phase level; in ℚ the
division yields 0.) -/
def update_output_gap (c : CountryState) (_regimes : RegimeParams)
    (a : AuditCapture) (demand_shock_pct : ℚ := 0) : CountryState × AuditCapture :=
  match c.macroSlice.gdp, c.macroSlice.potential_gdp with
  | some gdp, some pot =>
    let shock_adjusted := gdp * (1 + demand_shock_pct / 100)
    let new_gap := (shock_adjusted - pot) / pot
    ({ c with macroSlice := { c.macroSlice with output_gap := some new_gap } },
     a.record_change ("countries." ++ c.name ++ ".macro.output_gap")
       (optToVal c.macroSlice.output_gap) (PyVal.num new_gap)
       [("gdp", PyVal.num gdp), ("potential_gdp", PyVal.num pot),
        ("demand_shock_pct", PyVal.num demand_shock_pct),
        ("shock_adjusted_gdp", PyVal.num shock_adjusted)])
  | _, _ => (c, a)

/-- update_inflation: New-Keynesian Phillips curve with partial
adjustment.  When inflation is present, a missing output_gap is first
replaced in place by the default 0 (this write persists even when the
small-change threshold suppresses the FieldChange); the
inflation_target null-check of the source is dead code. -/
def update_inflation (c : CountryState) (regimes : RegimeParams)
    (a : AuditCapture) (kappa : ℚ := 1/10) (beta : ℚ := 3/5) :
    CountryState × AuditCapture :=
  match c.macroSlice.inflation with
  | some old_infl =>
    let m1 := { c.macroSlice with output_gap := some ((c.macroSlice.output_gap).getD 0) }
    let expected := m1.inflation_target
    let supply_shock := bagGetNum regimes.monetary ("supply_shock") 0
    let target_infl := beta * expected + kappa * ((m1.output_gap).getD 0) + supply_shock
    let adjustment_speed : ℚ := 1/10
    let new_infl := old_infl + adjustment_speed * (target_infl - old_infl)
    if |old_infl - new_infl| > 1/10000 then
      ({ c with macroSlice := { m1 with inflation := some new_infl } },
       a.record_change ("countries." ++ c.name ++ ".macro.inflation")
         (PyVal.num old_infl) (PyVal.num new_infl)
         [("phillips_curve", PyVal.str ("pi_t = beta*E[pi_(t+1)] + kappa*y_t + eps_t")),
          ("beta", PyVal.num beta), ("kappa", PyVal.num kappa),
          ("expected_inflation", PyVal.num expected),
          ("output_gap", optToVal m1.output_gap),
          ("supply_shock", PyVal.num supply_shock),
          ("adjustment_speed", PyVal.num adjustment_speed)])
    else ({ c with macroSlice := m1 }, a)
  | none => (c, a)

/-- fiscal_update: wealth tax regime applied to the primary balance;
requires gdp and primary_balance present; always records. -/
def fiscal_update (c : CountryState) (regimes : RegimeParams)
    (a : AuditCapture) : CountryState × AuditCapture :=
  let wealth_tax_rate := bagGetNum regimes.fiscal ("wealth_tax_rate") 0
  let elasticity_saving := bagGetNum regimes.fiscal ("elasticity_saving") (-3/10)
  match c.macroSlice.gdp, c.macroSlice.primary_balance with
  | some _, some old_balance =>
    let wealth_tax_revenue := wealth_tax_rate * (1/10)
    let saving_response := elasticity_saving * wealth_tax_rate
    let new_balance := old_balance + wealth_tax_revenue + saving_response * (1/5)
    ({ c with macroSlice := { c.macroSlice with primary_balance := some new_balance } },
     a.record_change ("countries." ++ c.name ++ ".macro.primary_balance")
       (PyVal.num old_balance) (PyVal.num new_balance)
       [("wealth_tax_rate", PyVal.num wealth_tax_rate),
        ("wealth_tax_revenue", PyVal.num wealth_tax_revenue),
        ("elasticity_saving", PyVal.num elasticity_saving),
        ("saving_response", PyVal.num saving_response),
        ("behavioral_adjustment", PyVal.num (saving_response * (1/5)))])
  | _, _ => (c, a)

/-- update_debt: IMF debt dynamics; requires debt, primary balance,
sovereign yield, gdp and potential_gdp present.  (gdp_growth = -1 makes
the Python division raise, caught at the phase level; in ℚ it yields
0.) -/
def update_debt (c : CountryState) (_regimes : RegimeParams)
    (a : AuditCapture) : CountryState × AuditCapture :=
  match c.macroSlice.debt_gdp, c.macroSlice.primary_balance,
        c.finance.sovereign_yield, c.macroSlice.gdp, c.macroSlice.potential_gdp with
  | some old_debt, some pb, some yld, some gdp, some pot =>
    let real_interest_rate := yld - pyOrElse c.macroSlice.inflation (1/50)
    let gdp_growth := (gdp - pot) / pot
    let debt_service_ratio := (1 + real_interest_rate) / (1 + gdp_growth)
    let new_debt := old_debt * debt_service_ratio - pb + c.macroSlice.sfa
    ({ c with macroSlice := { c.macroSlice with debt_gdp := some new_debt } },
     a.record_change ("countries." ++ c.name ++ ".macro.debt_gdp")
       (PyVal.num old_debt) (PyVal.num new_debt)
       [("debt_dynamics_formula", PyVal.str ("d_t = d_(t-1)*(1+r)/(1+g) - pb_t + sfa_t")),
        ("real_interest_rate", PyVal.num real_interest_rate),
        ("gdp_growth", PyVal.num gdp_growth),
        ("debt_service_ratio", PyVal.num debt_service_ratio),
        ("primary_balance", PyVal.num pb),
        ("sfa", PyVal.num c.macroSlice.sfa)])
  | _, _, _, _, _ => (c, a)

/-- settle_bop: balance-of-payments closure; requires current account,
gdp and reserves present. -/
def settle_bop (c : CountryState) (a : AuditCapture) : CountryState × AuditCapture :=
  match c.external.current_account_gdp, c.macroSlice.gdp with
  | some ca, some gdp =>
    let ca_usd := ca * gdp
    (match c.external.reserves_usd with
     | some old_reserves =>
       let new_reserves := old_reserves + ca_usd * (1/2)
       ({ c with external := { c.external with reserves_usd := some new_reserves } },
        a.record_change ("countries." ++ c.name ++ ".external.reserves_usd")
          (PyVal.num old_reserves) (PyVal.num new_reserves)
          [("bop_identity", PyVal.str ("delta_reserves = CA + capital account + errors")),
           ("current_account_usd", PyVal.num ca_usd),
           ("reserve_change", PyVal.num (new_reserves - old_reserves))])
     | none => (c, a))
  | _, _ => (c, a)

/-- update_fx: uncovered interest parity against the base country;
requires both policy rates and the fx rate present. -/
def update_fx (dom base : CountryState) (regimes : RegimeParams)
    (a : AuditCapture) (rho : ℚ := 0) : CountryState × AuditCapture :=
  let rho2 := bagGetNum regimes.fx ("uip_rho_base") rho
  match dom.macroSlice.policy_rate, base.macroSlice.policy_rate,
        dom.external.fx_rate with
  | some rd, some rb, some old_fx =>
    let interest_differential := rd - rb
    let expected_depreciation := interest_differential + rho2
    let new_fx := old_fx * (1 + expected_depreciation * (1/10))
    ({ dom with external := { dom.external with fx_rate := some new_fx } },
     a.record_change ("countries." ++ dom.name ++ ".external.fx_rate")
       (PyVal.num old_fx) (PyVal.num new_fx)
       [("uip_formula", PyVal.str ("E[delta_s] = r_domestic - r_foreign + rho")),
        ("domestic_rate", PyVal.num rd),
        ("foreign_rate", PyVal.num rb),
        ("interest_differential", PyVal.num interest_differential),
        ("risk_premium", PyVal.num rho2),
        ("expected_depreciation", PyVal.num expected_depreciation)])
  | _, _, _ => (dom, a)

/-- labor_supply_update: national-service labor supply effect with the
0.01 unemployment floor; runs only when the regime share is positive. -/
def labor_supply_update (c : CountryState) (regimes : RegimeParams)
    (a : AuditCapture) : CountryState × AuditCapture :=
  let national_service_pct := bagGetNum regimes.labor ("national_service_pct") 0
  match c.macroSlice.unemployment with
  | some old_unemployment =>
    if national_service_pct > 0 then
      let labor_reduction := national_service_pct / 100
      let unemployment_impact := -labor_reduction * (1/2)
      let new_unemployment := max (1/100) (old_unemployment + unemployment_impact)
      ({ c with macroSlice := { c.macroSlice with unemployment := some new_unemployment } },
       a.record_change ("countries." ++ c.name ++ ".macro.unemployment")
         (PyVal.num old_unemployment) (PyVal.num new_unemployment)
         [("national_service_pct", PyVal.num national_service_pct),
          ("labor_reduction", PyVal.num labor_reduction),
          ("unemployment_impact", PyVal.num unemployment_impact),
          ("pass_through_rate", PyVal.num (1/2))])
    else (c, a)
  | none => (c, a)

/-- Python int(): truncation toward zero. -/
def truncInt (q : ℚ) : ℤ := if 0 ≤ q then ⌊q⌋ else ⌈q⌉

/-- security_update: mobilization raises military spending and, when
personnel is present, personnel. -/
def security_update (c : CountryState) (regimes : RegimeParams)
    (a : AuditCapture) : CountryState × AuditCapture :=
  let mobilization_intensity := bagGetNum regimes.security ("mobilization_intensity") 0
  match c.security.milex_gdp with
  | some old_milex =>
    if mobilization_intensity > 0 then
      let mobilization_boost := mobilization_intensity * (1/50)
      let new_milex := old_milex + mobilization_boost
      let c2 := { c with security := { c.security with milex_gdp := some new_milex } }
      let a2 := a.record_change ("countries." ++ c.name ++ ".security.milex_gdp")
        (PyVal.num old_milex) (PyVal.num new_milex)
        [("mobilization_intensity", PyVal.num mobilization_intensity),
         ("mobilization_boost", PyVal.num mobilization_boost),
         ("boost_per_unit", PyVal.num (1/50))]
      (match c.security.personnel with
       | some old_personnel =>
         let personnel_increase : ℤ := truncInt (mobilization_intensity * 10000)
         let new_personnel := old_personnel + (personnel_increase : ℚ)
         ({ c2 with security := { c2.security with personnel := some new_personnel } },
          a2.record_change ("countries." ++ c.name ++ ".security.personnel")
            (PyVal.num old_personnel) (PyVal.num new_personnel)
            [("mobilization_intensity", PyVal.num mobilization_intensity),
             ("personnel_increase", PyVal.num (personnel_increase : ℚ)),
             ("increase_per_unit", PyVal.num 10000)])
       | none => (c2, a2))
    else (c, a)
  | none => (c, a)

/-- trade_update: the single global reducer; applies the tariff regime to
every country with both trade flows present, recording two FieldChanges
per affected country.  The effective_tariff detail is None when the
country has no tariff (the stale-locals leak of the source across loop
iterations is not modelled; no claim depends on that detail). -/
def trade_update (s : GlobalState) (regimes : RegimeParams)
    (a : AuditCapture) : GlobalState × AuditCapture :=
  let tariff_multiplier := bagGetNum regimes.trade ("tariff_multiplier") 1
  let ntm_shock := bagGetNum regimes.trade ("ntm_shock") 0
  (akeys s.countries).foldl
    (fun sa cname =>
      match alookup sa.1.countries cname with
      | none => sa
      | some c =>
        match c.trade.exports_gdp, c.trade.imports_gdp with
        | some old_exports, some old_imports =>
          let tariffInfo : ℚ × PyVal :=
            match c.trade.tariff_mfn_avg with
            | some tar => (-(1/2) * (tar * tariff_multiplier - tar),
                PyVal.num (tar * tariff_multiplier))
            | none => (0, PyVal.pynone)
          let tariff_impact := tariffInfo.1
          let ntm_impact := -ntm_shock * (3/10)
          let trade_impact := tariff_impact + ntm_impact
          let new_exports := old_exports * (1 + trade_impact)
          let new_imports := old_imports * (1 + trade_impact)
          let details : List (String × PyVal) :=
            [("tariff_multiplier", PyVal.num tariff_multiplier),
             ("effective_tariff", tariffInfo.2),
             ("tariff_impact", PyVal.num tariff_impact),
             ("ntm_shock", PyVal.num ntm_shock),
             ("ntm_impact", PyVal.num ntm_impact),
             ("total_trade_impact", PyVal.num trade_impact)]
          let a2 := (sa.2.record_change
              ("countries." ++ cname ++ ".trade.exports_gdp")
              (PyVal.num old_exports) (PyVal.num new_exports) details).record_change
              ("countries." ++ cname ++ ".trade.imports_gdp")
              (PyVal.num old_imports) (PyVal.num new_imports) details
          let c2 := { c with trade := { c.trade with
              exports_gdp := some new_exports, imports_gdp := some new_imports } }
          ({ sa.1 with countries := aset sa.1.countries cname c2 }, a2)
        | _, _ => sa)
    (s, a)

/-! ## Reducer registry and world reducer -/

/-- The monetary-policy implementations registered at module import, in
registration order (register_reducer_impl taylor, then fx_peg). -/
def monetaryImplNames : List String := ["taylor", "fx_peg"]

/-- get_reducer_impl for the monetary_policy slot: none models the
ValueError raised for an unknown implementation name. -/
def getMonetaryImpl (impl : String) :
    Option (CountryState → RegimeParams → AuditCapture → CountryState × AuditCapture) :=
  if impl = "taylor" then some monetary_policy_taylor
  else if impl = "fx_peg" then some monetary_policy_fx_peg
  else none

/-- The fixed reducer sequence of reduce_world. -/
def reducerSequenceNames : List String :=
  ["output_gap_update", "inflation_update", "monetary_policy", "fiscal_update",
   "debt_update", "fx_update", "trade_update", "labor_supply_update",
   "security_update", "bop_settlement"]

/-- Run a per-country reducer over every country in insertion order,
looking each country up in the current state so that a reducer observes
the cumulative effect of all earlier ones (the source mutates the
country objects held by the dict). -/
def overCountries (init : GlobalState × AuditCapture)
    (f : String → CountryState → GlobalState → AuditCapture →
      CountryState × AuditCapture) : GlobalState × AuditCapture :=
  (akeys init.1.countries).foldl
    (fun sa cname =>
      match alookup sa.1.countries cname with
      | none => sa
      | some c =>
        let ca := f cname c sa.1 sa.2
        ({ sa.1 with countries := aset sa.1.countries cname ca.1 }, ca.2))
    init

/-- One phase of reduce_world: append the reducer name to the sequence,
then run the phase.  The monetary phase looks the implementation up per
country; an unknown name raises ValueError at the first country, which
the phase-level try/except records (so no country is processed and the
pipeline continues).  The trade_update phase has no per-country branch;
the global reducer runs once after the (vacuous) country loop. -/
def applyPhase (base_ccy_country : String) (sa : GlobalState × AuditCapture)
    (phase : String) : GlobalState × AuditCapture :=
  let s := sa.1
  let a := sa.2.add_reducer phase
  if phase = "output_gap_update" then
    overCountries (s, a) (fun _ c st au => update_output_gap c st.rules.regimes au)
  else if phase = "inflation_update" then
    overCountries (s, a) (fun _ c st au => update_inflation c st.rules.regimes au)
  else if phase = "monetary_policy" then
    let rule := bagGetStr s.rules.regimes.monetary ("rule") ("taylor")
    match getMonetaryImpl rule with
    | some impl => overCountries (s, a) (fun _ c st au => impl c st.rules.regimes au)
    | none =>
      if s.countries.isEmpty then (s, a)
      else (s, a.add_error ("Error in monetary_policy: Unknown implementation " ++
          rule ++ " for reducer type monetary_policy"))
  else if phase = "fiscal_update" then
    overCountries (s, a) (fun _ c st au => fiscal_update c st.rules.regimes au)
  else if phase = "debt_update" then
    overCountries (s, a) (fun _ c st au => update_debt c st.rules.regimes au)
  else if phase = "fx_update" then
    overCountries (s, a) (fun cname c st au =>
      if cname ≠ base_ccy_country then
        match alookup st.countries base_ccy_country with
        | some b => update_fx c b st.rules.regimes au
        | none => (c, au)
      else (c, au))
  else if phase = "trade_update" then
    trade_update s s.rules.regimes a
  else if phase = "labor_supply_update" then
    overCountries (s, a) (fun _ c st au => labor_supply_update c st.rules.regimes au)
  else if phase = "security_update" then
    overCountries (s, a) (fun _ c st au => security_update c st.rules.regimes au)
  else if phase = "bop_settlement" then
    overCountries (s, a) (fun _ c _ au => settle_bop c au)
  else (s, a)

/-- reduce_world: if the base-currency country is absent from countries,
record an error naming it and return the state unchanged (t not
advanced, no reducer runs); otherwise run the fixed reducer sequence
and increment t by exactly 1.  The source message wraps the name in
quote characters, omitted here. -/
def reduce_world (s : GlobalState) (base_ccy_country : String)
    (a : AuditCapture) : GlobalState × AuditCapture :=
  match alookup s.countries base_ccy_country with
  | none => (s, a.add_error ("Base currency country " ++ base_ccy_country ++
      " not found"))
  | some _ =>
    let sa := reducerSequenceNames.foldl (applyPhase base_ccy_country) (s, a)
    ({ sa.1 with t := sa.1.t + 1 }, sa.2)

/-! ## Step orchestration (step_simulation in src/backend/app/api/simulation.py)

The web layer drives one step: it derives the fired set and fire-turn
map from the per-trigger database bookkeeping, evaluates conditions
against a prospective copy of the state with t already incremented,
applies firing triggers to the live state, updates the bookkeeping for
newly fired triggers, calls expire_triggers on the live state (whose t
is still the pre-increment turn), and finally calls reduce_world. -/

/-- Per-trigger persistent bookkeeping (the ScenarioTrigger columns the
step reads and writes). -/
structure TriggerBook where
  has_fired : Bool := false
  times_fired : ℕ := 0
  last_fired_at_turn : Option ℤ := none
  deriving DecidableEq, Repr

/-- The fixed currency-to-country table of step_simulation. -/
def base_ccy_country_tbl : List (String × String) :=
  [("USD", "USA"), ("CNY", "CHN"), ("EUR", "EUR"), ("JPY", "JPN"), ("GBP", "GBR")]

/-- Map a base currency to the base country name, defaulting to USA. -/
def baseCountryName (ccy : String) : String :=
  (alookup base_ccy_country_tbl ccy).getD ("USA")

/-- The fired set derived from the bookkeeping: names of once-only
triggers already fired (once_only is stored from condition.once). -/
def firedSetOf (books : List (Trigger × TriggerBook)) : List String :=
  (books.filter (fun tb => tb.2.has_fired ∧ tb.1.condition.once)).map
    (fun tb => tb.1.name)

/-- The fire-turn map derived from the bookkeeping: the source adds an
entry only when last_fired_at_turn is truthy (so neither None nor 0). -/
def fireTurnMapOf (books : List (Trigger × TriggerBook)) : List (String × ℤ) :=
  books.foldl
    (fun m tb =>
      if tb.2.has_fired ∧ tb.1.condition.once then
        match tb.2.last_fired_at_turn with
        | some f => if f = 0 then m else aset m tb.1.name f
        | none => m
      else m)
    []

/-- The result of one step as the web layer produces it. -/
structure StepResult where
  new_state : GlobalState
  audit : AuditCapture
  newly_fired : List String
  newly_expired : List String
  books : List (Trigger × TriggerBook)
  expired_map : List (String × ℤ)
  deriving DecidableEq, Repr

/-- The trigger loop of step_simulation: in list order, skip once-only
triggers already in the fired set, evaluate conditions against the
prospective state, apply firing triggers to the live state, and track
the newly fired names, the fired set and the audit. -/
def triggerPhase (evalState : GlobalState) (books : List (Trigger × TriggerBook))
    (s : GlobalState) (fired0 : List String) (a0 : AuditCapture) :
    GlobalState × List String × List String × AuditCapture :=
  books.foldl
    (fun acc tb =>
      let (st, newly, fset, au) := acc
      let tr := tb.1
      if tr.condition.once ∧ tr.name ∈ fset then acc
      else if eval_condition evalState (condWhen tr.condition) then
        let (st2, au2, success) := apply_trigger st tr au
        if success then
          (st2, newly ++ [tr.name],
           (if tr.condition.once ∧ tr.name ∉ fset then fset ++ [tr.name] else fset),
           au2.add_trigger_fired tr.name)
        else (st2, newly, fset, au2)
      else acc)
    (s, ([] : List String), fired0, a0)

/-- One simulation step (the kernel portion of step_simulation): the
audit capture is a DatabaseAuditCapture with reducer_name
"simulation_step"; conditions are evaluated against the prospective
state with t = t + 1 while actions mutate the live state; bookkeeping
is updated for newly fired triggers; expiry runs on the live state
before reduce_world (so against the pre-increment turn) and pops only
the local fire-turn map, which the source then discards (expired_map
returns it); the persistent bookkeeping is never reset on expiry.  The
base-currency lookup reads the post-trigger state, as the source does.
The source takes the next timestep from the scenario row
(current_timestep + 1); the model reads it as s.t + 1, which coincides
whenever the stored state turn counter matches the scenario timestep —
as holds for every state the pipeline itself produced without a trigger
patch writing the path t. -/
def stepSimulation (s : GlobalState) (books : List (Trigger × TriggerBook)) :
    StepResult :=
  let a0 : AuditCapture := { reducer_name := "simulation_step" }
  let fired0 := firedSetOf books
  let times0 := fireTurnMapOf books
  let next_t := s.t + 1
  let evalState := { s with t := next_t }
  let loop := triggerPhase evalState books s fired0 a0
  let st1 := loop.1
  let newly := loop.2.1
  let au1 := loop.2.2.2
  let books2 := books.map
    (fun tb =>
      if tb.1.name ∈ newly then
        (tb.1, { tb.2 with
                 has_fired := true
                 times_fired := tb.2.times_fired + 1
                 last_fired_at_turn := some (next_t : ℤ) })
      else tb)
  let ex := expire_triggers st1 (books.map (fun tb => tb.1)) times0
  let rw := reduce_world st1 (baseCountryName st1.base_ccy) au1
  { new_state := rw.1, audit := rw.2, newly_fired := newly,
    newly_expired := ex.1, books := books2, expired_map := ex.2 }

/-- Iterate steps: stepsFrom s books n is the StepResult of the
(n+1)-st step starting from s with the given bookkeeping. -/
def stepsFrom (s : GlobalState) (books : List (Trigger × TriggerBook)) :
    ℕ → StepResult
  | 0 => stepSimulation s books
  | n + 1 =>
    let r := stepsFrom s books n
    stepSimulation r.new_state r.books

/-! ## Frame lemmas -/

/-- A foldl preserves any invariant its step preserves. -/
theorem foldl_preserve {α σ : Type} (P : σ → Prop) (f : σ → α → σ) :
    ∀ (l : List α) (s : σ), P s → (∀ st x, P st → P (f st x)) →
      P (l.foldl f s) := by
  intro l
  induction l with
  | nil => intro s h _; exact h
  | cons x xs ih => intro s h hstep; exact ih (f s x) (hstep s x h) hstep

/-- Storing at an existing key leaves the key list unchanged. -/
theorem akeys_aset_mem {β : Type} :
    ∀ (l : List (String × β)) (k : String) (v : β), k ∈ akeys l →
      akeys (aset l k v) = akeys l := by
  intro l
  induction l with
  | nil => intro k v h; cases h
  | cons p rest ih =>
    intro k v h
    obtain ⟨pk, pv⟩ := p
    by_cases hk : pk = k
    · simp [aset, akeys, hk]
    · have hmem : k ∈ akeys rest := by
        simp only [akeys, List.map_cons, List.mem_cons] at h
        rcases h with h | h
        · exact absurd h.symm hk
        · exact h
      simp only [aset, akeys, List.map_cons, if_neg hk]
      have := ih k v hmem
      simp only [akeys] at this
      rw [this]

/-- A key is absent exactly when lookup fails. -/
theorem alookup_eq_none_iff {β : Type} :
    ∀ (l : List (String × β)) (k : String),
      alookup l k = none ↔ k ∉ akeys l := by
  intro l
  induction l with
  | nil => intro k; simp [alookup, akeys]
  | cons p rest ih =>
    intro k
    obtain ⟨pk, pv⟩ := p
    by_cases hk : pk = k
    · subst hk
      simp [alookup, akeys]
    · rw [show alookup ((pk, pv) :: rest) k = alookup rest k by
        simp [alookup, hk]]
      rw [ih k]
      simp only [akeys, List.map_cons, List.mem_cons]
      constructor
      · intro hn hor
        rcases hor with hor | hor
        · exact hk hor.symm
        · exact hn hor
      · intro hn hmem
        exact hn (Or.inr hmem)

/-- A successful lookup implies key membership. -/
theorem alookup_some_mem {β : Type} (l : List (String × β)) (k : String)
    (v : β) (h : alookup l k = some v) : k ∈ akeys l := by
  by_contra hk
  rw [← alookup_eq_none_iff] at hk
  rw [h] at hk
  cases hk

/-- A successful bagPatch only rewrites rules: turn counter, country
keys and base currency are unchanged. -/
theorem bagPatch_frame (s : GlobalState) (parts : List String) (key op : String)
    (v : PyVal) (get : RegimeParams → List (String × PyVal))
    (put : RegimeParams → List (String × PyVal) → RegimeParams)
    (s2 : GlobalState) (old nv : PyVal)
    (h : bagPatch s parts key op v get put = PatchOutcome.ok s2 old nv) :
    s2.t = s.t ∧ akeys s2.countries = akeys s.countries ∧
      s2.base_ccy = s.base_ccy := by
  unfold bagPatch at h
  split at h
  · cases h
    exact ⟨rfl, rfl, rfl⟩
  · cases h
  · cases h

/-- setMatrixAttr only rewrites a matrix field: t is unchanged. -/
theorem setMatrixAttr_t (s : GlobalState) (layer : String) (m : NetMatrix) :
    (setMatrixAttr s layer m).t = s.t := by
  unfold setMatrixAttr
  repeat' split
  all_goals rfl

/-- The ok branches of patchWrite change the turn counter only through
the single-segment path t: every other resolved path writes elsewhere. -/
theorem patchWrite_t_frame (s : GlobalState) (parts : List String) (op : String)
    (v : PyVal) (s2 : GlobalState) (old nv : PyVal)
    (hne : parts ≠ ["t"])
    (h : patchWrite s parts op v = PatchOutcome.ok s2 old nv) :
    s2.t = s.t := by
  unfold patchWrite at h
  repeat' split at h
  all_goals
    first
      | exact absurd rfl hne
      | (subst_vars; exact absurd rfl hne)
      | (cases h <;> first
          | rfl
          | exact setMatrixAttr_t _ _ _)
      | exact (bagPatch_frame _ _ _ _ _ _ _ _ _ _ h).1

/-- apply_policy_patch changes the turn counter only through a patch
whose path is exactly the single segment t. -/
theorem apply_policy_patch_t_frame (s : GlobalState) (p : PolicyPatch)
    (a : AuditCapture) (hne : p.path ≠ ["t"]) :
    (apply_policy_patch s p a).1.t = s.t := by
  unfold apply_policy_patch
  split
  · rfl
  case _ s2 old nv heq =>
    exact patchWrite_t_frame s p.path p.op p.value s2 old nv hne heq

/-- A foldl preserves any invariant its step preserves on the members
of the folded list. -/
theorem foldl_preserve_mem {α σ : Type} (P : σ → Prop) (f : σ → α → σ) :
    ∀ (l : List α) (s : σ), P s → (∀ st x, x ∈ l → P st → P (f st x)) →
      P (l.foldl f s) := by
  intro l
  induction l with
  | nil => intro s h _; exact h
  | cons x xs ih =>
    intro s h hstep
    exact ih (f s x) (hstep s x (List.mem_cons_self x xs) h)
      (fun st y hy hP => hstep st y (List.mem_cons_of_mem x hy) hP)

/-- apply_trigger preserves the turn counter when none of the trigger
patches targets the path t (overrides, rewrites and event injections
never write the state at all). -/
theorem apply_trigger_t_frame (s : GlobalState) (tr : Trigger) (a : AuditCapture)
    (hne : ∀ p ∈ tr.action.patches, p.path ≠ ["t"]) :
    (apply_trigger s tr a).1.t = s.t := by
  have h1 : ∀ (sa : GlobalState × AuditCapture), sa.1.t = s.t →
      (tr.action.patches.foldl
        (fun sa p => apply_policy_patch sa.1 p sa.2) sa).1.t = s.t := by
    intro sa hP
    refine foldl_preserve_mem (fun sa : GlobalState × AuditCapture => sa.1.t = s.t)
      _ tr.action.patches sa hP ?_
    intro st x hx hst
    exact (apply_policy_patch_t_frame st.1 x st.2 (hne x hx)).trans hst
  have h2 : ∀ (l : List ReducerOverride) (sa : GlobalState × AuditCapture),
      sa.1.t = s.t →
      (l.foldl (fun sa ov => apply_reducer_override sa.1 ov sa.2) sa).1.t = s.t := by
    intro l sa hP
    refine foldl_preserve (fun sa : GlobalState × AuditCapture => sa.1.t = s.t)
      _ l sa hP ?_
    intro st x hst
    exact hst
  have h3 : ∀ (l : List NetworkRewrite) (sa : GlobalState × AuditCapture),
      sa.1.t = s.t →
      (l.foldl (fun sa rw => apply_network_rewrite sa.1 rw sa.2) sa).1.t = s.t := by
    intro l sa hP
    refine foldl_preserve (fun sa : GlobalState × AuditCapture => sa.1.t = s.t)
      _ l sa hP ?_
    intro st x hst
    unfold apply_network_rewrite
    split
    · exact hst
    · split
      · exact hst
      · exact hst
  have h4 : ∀ (l : List EventInject) (sa : GlobalState × AuditCapture),
      sa.1.t = s.t →
      (l.foldl (fun sa ev => inject_event sa.1 ev sa.2) sa).1.t = s.t := by
    intro l sa hP
    refine foldl_preserve (fun sa : GlobalState × AuditCapture => sa.1.t = s.t)
      _ l sa hP ?_
    intro st x hst
    exact hst
  exact h4 _ _ (h3 _ _ (h2 _ _ (h1 _ rfl)))

/-- The trigger phase preserves the turn counter when no trigger patch
targets the path t. -/
theorem triggerPhase_t_frame (evalState : GlobalState)
    (books : List (Trigger × TriggerBook)) (s : GlobalState)
    (fired0 : List String) (a0 : AuditCapture)
    (hne : ∀ tb ∈ books, ∀ p ∈ tb.1.action.patches, p.path ≠ ["t"]) :
    (triggerPhase evalState books s fired0 a0).1.t = s.t := by
  unfold triggerPhase
  refine foldl_preserve_mem
    (fun acc : GlobalState × List String × List String × AuditCapture =>
      acc.1.t = s.t) _ books _ rfl ?_
  intro acc x hx hacc
  obtain ⟨sA, nA, fA, aA⟩ := acc
  dsimp only
  split
  · exact hacc
  · split
    · have hf := apply_trigger_t_frame sA x.1 aA (hne x hx)
      split
      · exact hf.trans hacc
      · exact hf.trans hacc
    · exact hacc

/-- overCountries never changes the turn counter, the base currency or
the set of country keys. -/
theorem overCountries_frame (init : GlobalState × AuditCapture)
    (f : String → CountryState → GlobalState → AuditCapture →
      CountryState × AuditCapture) :
    (overCountries init f).1.t = init.1.t ∧
      akeys (overCountries init f).1.countries = akeys init.1.countries ∧
      (overCountries init f).1.base_ccy = init.1.base_ccy := by
  unfold overCountries
  refine foldl_preserve
    (fun sa : GlobalState × AuditCapture =>
      sa.1.t = init.1.t ∧ akeys sa.1.countries = akeys init.1.countries ∧
      sa.1.base_ccy = init.1.base_ccy) _ _ _ ⟨rfl, rfl, rfl⟩ ?_
  intro st x hst
  dsimp only
  split
  · exact hst
  case _ c hc =>
    refine ⟨hst.1, ?_, hst.2.2⟩
    rw [akeys_aset_mem _ _ _ (alookup_some_mem _ _ _ hc)]
    exact hst.2.1

/-- trade_update never changes the turn counter, the base currency or
the set of country keys. -/
theorem trade_update_frame (s : GlobalState) (regimes : RegimeParams)
    (a : AuditCapture) :
    (trade_update s regimes a).1.t = s.t ∧
      akeys (trade_update s regimes a).1.countries = akeys s.countries ∧
      (trade_update s regimes a).1.base_ccy = s.base_ccy := by
  unfold trade_update
  refine foldl_preserve
    (fun sa : GlobalState × AuditCapture =>
      sa.1.t = s.t ∧ akeys sa.1.countries = akeys s.countries ∧
      sa.1.base_ccy = s.base_ccy) _ _ _ ⟨rfl, rfl, rfl⟩ ?_
  intro st x hst
  dsimp only
  split
  · exact hst
  case _ c hc =>
    split
    case _ e i he hi =>
      refine ⟨hst.1, ?_, hst.2.2⟩
      rw [akeys_aset_mem _ _ _ (alookup_some_mem _ _ _ hc)]
      exact hst.2.1
    case _ => exact hst

/-- Every reducer phase preserves the turn counter, the base currency
and the set of country keys. -/
theorem applyPhase_frame (base : String) (sa : GlobalState × AuditCapture)
    (phase : String) :
    (applyPhase base sa phase).1.t = sa.1.t ∧
      akeys (applyPhase base sa phase).1.countries = akeys sa.1.countries ∧
      (applyPhase base sa phase).1.base_ccy = sa.1.base_ccy := by
  unfold applyPhase
  dsimp only
  repeat' split
  all_goals first
    | exact ⟨rfl, rfl, rfl⟩
    | exact overCountries_frame _ _
    | exact trade_update_frame _ _ _

/-- The failure branch of reduce_world: when the base country is absent
the state is returned unchanged (t not advanced) and the only effect is
the error message naming the country. -/
theorem reduce_world_none (s : GlobalState) (base : String) (a : AuditCapture)
    (h : alookup s.countries base = none) :
    reduce_world s base a =
      (s, a.add_error ("Base currency country " ++ base ++ " not found")) := by
  unfold reduce_world
  rw [h]

/-- The success branch of reduce_world advances t by exactly 1 and
preserves the base currency and the country keys. -/
theorem reduce_world_frame (s : GlobalState) (base : String) (a : AuditCapture)
    (h : (alookup s.countries base).isSome) :
    (reduce_world s base a).1.t = s.t + 1 ∧
      akeys (reduce_world s base a).1.countries = akeys s.countries ∧
      (reduce_world s base a).1.base_ccy = s.base_ccy := by
  obtain ⟨c, hc⟩ := Option.isSome_iff_exists.mp h
  unfold reduce_world
  rw [hc]
  dsimp only
  have hfold := foldl_preserve
    (fun sa : GlobalState × AuditCapture =>
      sa.1.t = s.t ∧ akeys sa.1.countries = akeys s.countries ∧
      sa.1.base_ccy = s.base_ccy)
    (applyPhase base) reducerSequenceNames (s, a) ⟨rfl, rfl, rfl⟩
    (fun st x hst =>
      ⟨(applyPhase_frame base st x).1.trans hst.1,
       (applyPhase_frame base st x).2.1.trans hst.2.1,
       (applyPhase_frame base st x).2.2.trans hst.2.2⟩)
  exact ⟨by rw [hfold.1], hfold.2.1, hfold.2.2⟩

/-- lookup succeeds exactly on present keys. -/
theorem alookup_isSome_iff {β : Type} (l : List (String × β)) (k : String) :
    (alookup l k).isSome ↔ k ∈ akeys l := by
  rw [Option.isSome_iff_ne_none, Ne, alookup_eq_none_iff, not_not]

/-! ## Shared concrete sample inputs -/

/-- A country with every nullable field unset. -/
def usaInert : CountryState := { name := "USA" }

/-- A USD state containing only the inert USA. -/
def stateUSA : GlobalState :=
  { t := 0, base_ccy := "USD", countries := [("USA", usaInert)] }

/-- A USD state with no countries at all. -/
def stateNoCountries : GlobalState := { t := 0, base_ccy := "USD", countries := [] }

/-- An empty step audit capture as the pipeline builds it. -/
def stepAudit0 : AuditCapture := { reducer_name := "simulation_step" }

/-- The live state after the trigger phase of a step (the current_state
the source hands to expire_triggers and reduce_world). -/
def triggerStateOf (s : GlobalState) (books : List (Trigger × TriggerBook)) :
    GlobalState :=
  (triggerPhase { s with t := s.t + 1 } books s (firedSetOf books) stepAudit0).1

/-- The audit capture after the trigger phase of a step. -/
def triggerAuditOf (s : GlobalState) (books : List (Trigger × TriggerBook)) :
    AuditCapture :=
  (triggerPhase { s with t := s.t + 1 } books s (firedSetOf books) stepAudit0).2.2.2

/-- No trigger in the bookkeeping carries a policy patch whose path is
the top-level turn counter t. -/
def noTurnPatch (books : List (Trigger × TriggerBook)) : Prop :=
  ∀ tb ∈ books, ∀ p ∈ tb.1.action.patches, p.path ≠ ["t"]

/-! ## Claim theorems -/

/-- C2 (amended): on a successful step reduce_world advances the turn
counter of the post-trigger state by exactly 1, and a fired trigger
patch can write the top-level field t itself (the path t resolves via
setattr), so the increment relative to the input state holds exactly
when no trigger patch targets t; the base-currency country is derived
from the post-trigger base_ccy (via the fixed currency table,
defaulting to USA) and, when it is absent from the post-trigger
countries, the step records the error naming it, leaves the
post-trigger state unchanged with t not advanced, and applies no
reducer (the audited field changes are exactly those left by the
trigger phase, so with no triggers the state is returned unchanged). -/
theorem c2_turn_advance_and_base_missing (s : GlobalState)
    (books : List (Trigger × TriggerBook)) :
    ((alookup (triggerStateOf s books).countries
        (baseCountryName (triggerStateOf s books).base_ccy)).isSome →
      (stepSimulation s books).new_state.t = (triggerStateOf s books).t + 1 ∧
      (noTurnPatch books → (stepSimulation s books).new_state.t = s.t + 1)) ∧
    (alookup (triggerStateOf s books).countries
        (baseCountryName (triggerStateOf s books).base_ccy) = none →
      (stepSimulation s books).new_state = triggerStateOf s books ∧
      (stepSimulation s books).new_state.t = (triggerStateOf s books).t ∧
      (noTurnPatch books → (stepSimulation s books).new_state.t = s.t) ∧
      ("Base currency country " ++ baseCountryName (triggerStateOf s books).base_ccy ++
          " not found") ∈ (stepSimulation s books).audit.errors ∧
      (stepSimulation s books).audit.field_changes =
        (triggerAuditOf s books).field_changes) := by
  have hT : noTurnPatch books → (triggerStateOf s books).t = s.t :=
    fun hno => triggerPhase_t_frame { s with t := s.t + 1 } books s
      (firedSetOf books) stepAudit0 hno
  constructor
  · intro hsome
    have ht : (stepSimulation s books).new_state.t = (triggerStateOf s books).t + 1 := by
      show (reduce_world (triggerStateOf s books)
          (baseCountryName (triggerStateOf s books).base_ccy)
          (triggerAuditOf s books)).1.t = (triggerStateOf s books).t + 1
      exact (reduce_world_frame _ _ _ hsome).1
    exact ⟨ht, fun hno => by rw [ht, hT hno]⟩
  · intro hnone
    have hred : reduce_world (triggerStateOf s books)
        (baseCountryName (triggerStateOf s books).base_ccy)
        (triggerAuditOf s books) =
        ((triggerStateOf s books), (triggerAuditOf s books).add_error
          ("Base currency country " ++
            baseCountryName (triggerStateOf s books).base_ccy ++ " not found")) :=
      reduce_world_none _ _ _ hnone
    refine ⟨?_, ?_, ?_, ?_, ?_⟩
    · show (reduce_world (triggerStateOf s books)
          (baseCountryName (triggerStateOf s books).base_ccy)
          (triggerAuditOf s books)).1 = triggerStateOf s books
      rw [hred]
    · show (reduce_world (triggerStateOf s books)
          (baseCountryName (triggerStateOf s books).base_ccy)
          (triggerAuditOf s books)).1.t = (triggerStateOf s books).t
      rw [hred]
    · intro hno
      show (reduce_world (triggerStateOf s books)
          (baseCountryName (triggerStateOf s books).base_ccy)
          (triggerAuditOf s books)).1.t = s.t
      rw [hred]
      exact hT hno
    · show ("Base currency country " ++
          baseCountryName (triggerStateOf s books).base_ccy ++ " not found") ∈
          (reduce_world (triggerStateOf s books)
            (baseCountryName (triggerStateOf s books).base_ccy)
            (triggerAuditOf s books)).2.errors
      rw [hred]
      simp [AuditCapture.add_error]
    · show (reduce_world (triggerStateOf s books)
          (baseCountryName (triggerStateOf s books).base_ccy)
          (triggerAuditOf s books)).2.field_changes = _
      rw [hred]
      rfl

/-- Witness for C2 at concrete inputs: with USA present and no triggers
a step from t = 0 reaches t = 1; with countries empty the step keeps
t = 0, records the error naming USA, and returns the state unchanged. -/
theorem c2_witness :
    (stepSimulation stateUSA []).new_state.t = 0 + 1 ∧
    (stepSimulation stateNoCountries []).new_state.t = 0 ∧
    ("Base currency country USA not found")
      ∈ (stepSimulation stateNoCountries []).audit.errors := by
  refine ⟨?_, ?_, ?_⟩
  · exact ((c2_turn_advance_and_base_missing stateUSA []).1 (by decide)).2
      (fun tb htb => absurd htb (List.not_mem_nil tb))
  · exact (((c2_turn_advance_and_base_missing stateNoCountries []).2
        (by decide)).2.2.1) (fun tb htb => absurd htb (List.not_mem_nil tb))
  · exact ((c2_turn_advance_and_base_missing stateNoCountries []).2
      (by decide)).2.2.2.1

/-- A trigger with no condition text (always true) whose policy patch
sets the top-level turn counter t to 100. -/
def tPatchTrigger : Trigger :=
  { name := "time_warp"
    condition := { whenSpec := none, once := true }
    action := { patches := [{ path := ["t"], op := "set", value := PyVal.num 100 }] } }

/-- Counterexample for C2: apply_policy_patch resolves the single-
segment path t on the typed state (hasattr succeeds on the t field) and
setattr writes it unvalidated, recording a FieldChange; the step fires
the trigger, the trigger phase sets t = 100 from t = 0, and the
successful reduce_world run increments the patched counter, so the
step ends at t = 101: a successful step whose turn counter did not
increase by exactly 1. -/
theorem c2_counterexample :
    (stepSimulation stateUSA [(tPatchTrigger, {})]).newly_fired = ["time_warp"] ∧
    (triggerAuditOf stateUSA [(tPatchTrigger, {})]).field_changes =
      [{ field_path := "t"
         old_value := PyVal.num 0
         new_value := PyVal.num 100
         reducer_name := "simulation_step"
         reducer_params := []
         calculation_details :=
           [("trigger_action", PyVal.str ("policy_patch")),
            ("operation", PyVal.str ("set")),
            ("patch_value", PyVal.num 100)] }] ∧
    (stepSimulation stateUSA [(tPatchTrigger, {})]).new_state.t = 101 ∧
    stateUSA.t + 1 = 1 ∧ (101 : ℤ) ≠ 1 := by
  refine ⟨by decide, by decide, ?_, by decide, by decide⟩
  show (reduce_world (triggerStateOf stateUSA [(tPatchTrigger, {})])
      (baseCountryName (triggerStateOf stateUSA [(tPatchTrigger, {})]).base_ccy)
      (triggerAuditOf stateUSA [(tPatchTrigger, {})])).1.t = 101
  have hst : triggerStateOf stateUSA [(tPatchTrigger, {})] =
      { stateUSA with t := 100 } := by rfl
  rw [hst]
  rw [(reduce_world_frame { stateUSA with t := 100 }
      (baseCountryName ({ stateUSA with t := 100 } : GlobalState).base_ccy)
      (triggerAuditOf stateUSA [(tPatchTrigger, {})]) (by decide)).1]
  decide

/-- C7: within a step, if some already-recorded FieldChange targets a
country's policy rate (as a fired trigger's patch does — the source
guard also requires the step's fired-trigger list to be non-empty,
which holds whenever a fired trigger recorded the change), the Taylor
implementation leaves the country untouched and appends exactly one
marker change at countries.<C>.macro.policy_rate_taylor_rule_skipped
whose details carry reason, trigger_set_value and triggers_fired; in
particular no further FieldChange for the policy-rate path is emitted. -/
theorem c7_taylor_skip_marker (c : CountryState) (regimes : RegimeParams)
    (a : AuditCapture)
    (h1 : ∃ fc ∈ a.field_changes, fc.field_path = policyRatePath c)
    (h2 : a.triggers_fired ≠ []) :
    monetary_policy_taylor c regimes a =
      (c, a.record_change (policyRatePath c ++ "_taylor_rule_skipped")
        PyVal.pynone PyVal.pynone
        [("reason", PyVal.str ("Policy rate modified by trigger, Taylor rule skipped")),
         ("trigger_set_value", optToVal c.macroSlice.policy_rate),
         ("triggers_fired", PyVal.strlist a.triggers_fired)]) := by
  have hany : a.field_changes.any (fun fc => fc.field_path = policyRatePath c) = true := by
    obtain ⟨fc, hmem, hpath⟩ := h1
    simp only [List.any_eq_true, decide_eq_true_eq]
    exact ⟨fc, hmem, hpath⟩
  unfold monetary_policy_taylor
  dsimp only
  rw [if_pos ⟨h2, hany⟩]

/-- The audit state of a step in which a trigger named cut already set
the USA policy rate. -/
def c7Audit : AuditCapture :=
  { reducer_name := "simulation_step"
    field_changes := [{ field_path := "countries.USA.macro.policy_rate"
                        reducer_name := "simulation_step" }]
    triggers_fired := ["cut"] }

/-- Witness for C7: on the concrete audit left by a trigger, the Taylor
implementation appends exactly the skip marker. -/
theorem c7_witness :
    (monetary_policy_taylor usaInert {} c7Audit).2.field_changes.map
      (fun fc => fc.field_path) =
    ["countries.USA.macro.policy_rate",
     "countries.USA.macro.policy_rate_taylor_rule_skipped"] := by
  rw [c7_taylor_skip_marker usaInert {} c7Audit
    ⟨{ field_path := "countries.USA.macro.policy_rate"
       reducer_name := "simulation_step" }, by simp [c7Audit], rfl⟩
    (by simp [c7Audit])]
  rfl

/-- The Taylor-rule right-hand side as the spec states it, with the
stated defaults substituted for missing output gap and neutral rate and
the regime gains with their 0.5 defaults. -/
def taylorRawSpec (c : CountryState) (regimes : RegimeParams) (infl : ℚ) : ℚ :=
  (c.macroSlice.neutral_rate).getD (1/40) + infl +
    bagGetNum regimes.monetary ("phi_pi") (1/2) *
      (infl - c.macroSlice.inflation_target) +
    bagGetNum regimes.monetary ("phi_y") (1/2) *
      ((c.macroSlice.output_gap).getD 0)

/-- A country whose policy rate is exactly 0 while the Taylor rule also
yields 0. -/
def c8Country : CountryState :=
  { name := "USA"
    macroSlice := { inflation := some (-1/100), output_gap := some 0,
                    neutral_rate := some (1/40), policy_rate := some 0 } }

/-- Counterexample for C8: with policy_rate = 0 and a Taylor value of 0
the new rate equals the old one (|r-prime − r| = 0 ≤ 1e-4), yet the
implementation emits a FieldChange, because the source computes the old
rate as `policy_rate or 0.02` and Python or-truthiness turns the rate 0
into 0.02. -/
theorem c8_counterexample :
    c8Country.macroSlice.policy_rate = some 0 ∧
    taylor_rule c8Country.macroSlice {} = 0 ∧
    ¬ ((|(0 : ℚ) - 0| : ℚ) > 1/10000) ∧
    (monetary_policy_taylor c8Country {} stepAudit0).2.field_changes.map
      (fun fc => fc.field_path) = ["countries.USA.macro.policy_rate"] ∧
    (monetary_policy_taylor c8Country {} stepAudit0).1.macroSlice.policy_rate =
      some 0 := by
  have htay : taylor_rule c8Country.macroSlice {} = 0 := by
    simp only [taylor_rule, bagGetNum, alookup, c8Country, String.reduceEq, reduceIte]
    norm_num
  refine ⟨rfl, htay, by norm_num, ?_, ?_⟩ <;>
  · simp only [monetary_policy_taylor, taylor_rule, bagGetNum, alookup, c8Country,
      stepAudit0, policyRatePath, pyOrElse, AuditCapture.record_change, optToVal,
      String.reduceEq, reduceIte]
    norm_num
    split
    · simp
    · next h =>
        exfalso
        apply h
        rw [lt_abs]
        left
        norm_num

/-- C8 (amended): for a country not skipped by the trigger-priority rule
and with inflation present, the Taylor implementation computes
r_raw = r-star + inflation + phi_pi (inflation − target) + phi_y y with
the stated defaults, clamps it at the zero lower bound (the new rate is
never negative), and emits a FieldChange exactly when the clamped rate
differs by more than 1e-4 from the old rate r0, where r0 is the current
policy rate with None or 0.0 replaced by 0.02 (Python or-truthiness);
when it emits, the stored rate is the clamped value and the single
appended change targets the policy-rate path. -/
theorem c8_taylor_zero_bound_and_threshold (c : CountryState)
    (regimes : RegimeParams) (a : AuditCapture) (infl : ℚ)
    (hskip : a.triggers_fired = [])
    (hinf : c.macroSlice.inflation = some infl) :
    0 ≤ max 0 (taylorRawSpec c regimes infl) ∧
    ((|pyOrElse c.macroSlice.policy_rate (1/50) -
        max 0 (taylorRawSpec c regimes infl)| > 1/10000) →
      ((monetary_policy_taylor c regimes a).1.macroSlice.policy_rate =
          some (max 0 (taylorRawSpec c regimes infl)) ∧
        ∃ fc, (monetary_policy_taylor c regimes a).2.field_changes =
            a.field_changes ++ [fc] ∧
          fc.field_path = policyRatePath c ∧
          fc.new_value = PyVal.num (max 0 (taylorRawSpec c regimes infl)))) ∧
    (¬ (|pyOrElse c.macroSlice.policy_rate (1/50) -
        max 0 (taylorRawSpec c regimes infl)| > 1/10000) →
      ((monetary_policy_taylor c regimes a).1.macroSlice.policy_rate =
          c.macroSlice.policy_rate ∧
        (monetary_policy_taylor c regimes a).2 = a)) := by
  have hcond : ¬ (a.triggers_fired ≠ [] ∧
      a.field_changes.any (fun fc => fc.field_path = policyRatePath c) = true) := by
    intro hcontra
    exact hcontra.1 hskip
  have hnew : taylor_rule
      { c.macroSlice with
        output_gap := some ((c.macroSlice.output_gap).getD 0)
        neutral_rate := some ((c.macroSlice.neutral_rate).getD (1/40)) } regimes =
      max 0 (taylorRawSpec c regimes infl) := by
    unfold taylor_rule taylorRawSpec
    dsimp only
    rw [hinf]
  constructor
  · exact le_max_left 0 _
  constructor
  · intro hth
    unfold monetary_policy_taylor
    dsimp only
    rw [if_neg hcond, hnew, if_pos hth]
    exact ⟨rfl, _, rfl, rfl, rfl⟩
  · intro hth
    unfold monetary_policy_taylor
    dsimp only
    rw [if_neg hcond, hnew, if_neg hth]
    exact ⟨rfl, rfl⟩

/-- A country with 8 percent inflation and a 2 percent policy rate. -/
def c8WitnessCountry : CountryState :=
  { name := "USA"
    macroSlice := { inflation := some (2/25), output_gap := some 0,
                    neutral_rate := some (1/40), policy_rate := some (1/50) } }

/-- Witness for C8 at a concrete input: USA with 8 percent inflation and
a 2 percent rate moves to the clamped Taylor value, and the Taylor
output is non-negative. -/
theorem c8_witness :
    (0 : ℚ) ≤ max 0 (taylorRawSpec c8WitnessCountry {} (2/25)) ∧
    (monetary_policy_taylor c8WitnessCountry {} stepAudit0).1.macroSlice.policy_rate =
      some (max 0 (taylorRawSpec c8WitnessCountry {} (2/25))) := by
  refine ⟨(c8_taylor_zero_bound_and_threshold c8WitnessCountry {} stepAudit0 (2/25)
    rfl rfl).1, ?_⟩
  exact ((c8_taylor_zero_bound_and_threshold c8WitnessCountry {} stepAudit0 (2/25)
    rfl rfl).2.1 (by
      simp only [pyOrElse, taylorRawSpec, bagGetNum, alookup, c8WitnessCountry,
        String.reduceEq, reduceIte]
      norm_num
      rw [lt_abs]
      left
      norm_num)).1

/-- A state at t = 5 with no countries at all. -/
def c9State : GlobalState := { t := 5 }

/-- The compiled form of: country(USA).macro.inflation != 0.05 (the
source DSL wraps the country code in single quotes, omitted here). -/
def c9NeSpec : CondSpec :=
  { text := "country(USA).macro.inflation != 0.05"
    compiled := some (CondExpr.cmp CmpOp.ne
      (Operand.field "USA" ["macro", "inflation"]) (Operand.lit (1/20))) }

/-- Counterexample for C9: over a state with no USA the inequality
comparison against a missing value evaluates to TRUE (Python None != x
is True), so a trigger guarded by it fires; the claim says every listed
comparison with a missing value evaluates to false. -/
theorem c9_counterexample :
    alookup c9State.countries "USA" = none ∧
    eval_condition c9State c9NeSpec = true := by
  exact ⟨rfl, by decide⟩

/-- C9 (amended): an empty or all-whitespace expression evaluates to
true; a comparison of a missing value (unknown country or absent field)
against a numeric literal evaluates to false for <, ≤, >, ≥ (the
TypeError is caught) and for =, but to TRUE for ≠ — so only a
≠-condition over an unknown country can fire a trigger. -/
theorem c9_eval_condition_missing :
    (∀ (s : GlobalState) (sp : CondSpec), isBlank sp.text →
      eval_condition s sp = true) ∧
    (∀ (s : GlobalState) (code : String) (path : List String) (q : ℚ)
      (op : CmpOp) (txt : String), alookup s.countries code = none →
      isBlank txt = false →
      eval_condition s
        { text := txt
          compiled := some (CondExpr.cmp op (Operand.field code path)
            (Operand.lit q)) } = decide (op = CmpOp.ne)) := by
  constructor
  · intro s sp h
    unfold eval_condition
    rw [if_pos h]
  · intro s code path q op txt hmiss htxt
    unfold eval_condition
    rw [if_neg (by simp [htxt])]
    cases op <;> simp [evalCond, evalCmp, operandVal, country_field, hmiss]

/-- The compiled form of: country(USA).macro.inflation > 0.05. -/
def c9GtSpec : CondSpec :=
  { text := "country(USA).macro.inflation > 0.05"
    compiled := some (CondExpr.cmp CmpOp.gt
      (Operand.field "USA" ["macro", "inflation"]) (Operand.lit (1/20))) }

/-- Witness for C9 at concrete inputs: a whitespace expression is true;
an ordered comparison over the unknown USA is false. -/
theorem c9_witness :
    eval_condition c9State { text := "   ", compiled := none } = true ∧
    eval_condition c9State c9GtSpec = false := by
  constructor
  · exact c9_eval_condition_missing.1 c9State _ (by decide)
  · exact (c9_eval_condition_missing.2 c9State "USA" ["macro", "inflation"]
      (1/20) CmpOp.gt ("country(USA).macro.inflation > 0.05") rfl
      (by decide)).trans (by decide)

/-- C10: when Taylor-rule inputs are null the inert defaults are written
directly into the country state in place — after the reducer runs,
output_gap = 0 and neutral_rate = 0.025 are stored (no longer null) —
and likewise the inflation reducer stores output_gap = 0; no FieldChange
records these default-fill writes (the only changes the two reducers
append target the policy-rate and inflation paths respectively).  The
inflation_target clause of the claim is vacuous: that field is
non-nullable with default 0.02, and the null-check in the source is dead
code. -/
theorem c10_default_fill_unrecorded (c : CountryState) (regimes : RegimeParams)
    (a : AuditCapture) (infl : ℚ)
    (hg : c.macroSlice.output_gap = none)
    (hn : c.macroSlice.neutral_rate = none)
    (ht : a.triggers_fired = [])
    (hi : c.macroSlice.inflation = some infl) :
    ((monetary_policy_taylor c regimes a).1.macroSlice.output_gap = some 0 ∧
     (monetary_policy_taylor c regimes a).1.macroSlice.neutral_rate = some (1/40) ∧
     ∀ fc ∈ (monetary_policy_taylor c regimes a).2.field_changes,
       fc ∈ a.field_changes ∨ fc.field_path = policyRatePath c) ∧
    ((update_inflation c regimes a).1.macroSlice.output_gap = some 0 ∧
     ∀ fc ∈ (update_inflation c regimes a).2.field_changes,
       fc ∈ a.field_changes ∨
         fc.field_path = "countries." ++ c.name ++ ".macro.inflation") := by
  have hcond : ¬ (a.triggers_fired ≠ [] ∧
      a.field_changes.any (fun fc => fc.field_path = policyRatePath c) = true) :=
    fun hco => hco.1 ht
  constructor
  · unfold monetary_policy_taylor
    dsimp only
    rw [if_neg hcond, hg, hn]
    dsimp only [Option.getD]
    split
    · refine ⟨rfl, rfl, ?_⟩
      intro fc hfc
      simp only [AuditCapture.record_change, List.mem_append,
        List.mem_singleton] at hfc
      rcases hfc with hfc | hfc
      · exact Or.inl hfc
      · subst hfc
        exact Or.inr rfl
    · exact ⟨rfl, rfl, fun fc hfc => Or.inl hfc⟩
  · unfold update_inflation
    rw [hi]
    dsimp only
    rw [hg]
    dsimp only [Option.getD]
    split
    · refine ⟨rfl, ?_⟩
      intro fc hfc
      simp only [AuditCapture.record_change, List.mem_append,
        List.mem_singleton] at hfc
      rcases hfc with hfc | hfc
      · exact Or.inl hfc
      · subst hfc
        exact Or.inr rfl
    · exact ⟨rfl, fun fc hfc => Or.inl hfc⟩

/-- A country with inflation known but output gap and neutral rate
null. -/
def c10Country : CountryState :=
  { name := "USA", macroSlice := { inflation := some (2/25) } }

/-- Witness for C10: the null output gap and neutral rate are replaced
by their defaults after one run of each reducer. -/
theorem c10_witness :
    (monetary_policy_taylor c10Country {} stepAudit0).1.macroSlice.output_gap =
      some 0 ∧
    (monetary_policy_taylor c10Country {} stepAudit0).1.macroSlice.neutral_rate =
      some (1/40) ∧
    (update_inflation c10Country {} stepAudit0).1.macroSlice.output_gap =
      some 0 := by
  obtain ⟨h1, h2⟩ := c10_default_fill_unrecorded c10Country {} stepAudit0 (2/25)
    rfl rfl rfl rfl
  exact ⟨h1.1, h1.2.1, h2.1⟩

/-- C5 (amended): a FieldChange recorded by apply_policy_patch carries
the audit capture's own reducer_name (the step pipeline builds one
capture named simulation_step and shares it for the whole step, so
trigger patches are attributed to simulation_step, never to
trigger:<name>), the capture's reducer_params (empty in the pipeline),
and calculation_details = trigger_action: policy_patch, operation: op,
patch_value: value. -/
theorem c5_patch_audit_attribution (s : GlobalState) (p : PolicyPatch)
    (a : AuditCapture) (fc : FieldChange)
    (h : (apply_policy_patch s p a).2.field_changes = a.field_changes ++ [fc]) :
    fc.reducer_name = a.reducer_name ∧
    fc.reducer_params = a.reducer_params ∧
    fc.calculation_details =
      [("trigger_action", PyVal.str ("policy_patch")),
       ("operation", PyVal.str p.op),
       ("patch_value", p.value)] ∧
    fc.field_path = pathStr p.path := by
  unfold apply_policy_patch at h
  split at h
  · exfalso
    simp only [AuditCapture.add_error] at h
    have : ([] : List FieldChange) = [fc] := by
      have h2 := congrArg List.length h
      simp at h2
    cases this
  · simp only [AuditCapture.record_change] at h
    have h2 := List.append_cancel_left h
    injection h2 with hfc htl
    rw [← hfc]
    exact ⟨rfl, rfl, rfl, rfl⟩

/-- A trigger (no condition text, so always true) that patches the
trade tariff multiplier to 2. -/
def c5Trigger : Trigger :=
  { name := "cut_rates"
    condition := { whenSpec := none, once := true }
    action := { patches :=
      [{ path := ["rules", "regimes", "trade", "tariff_multiplier"]
         op := "set"
         value := PyVal.num 2 }] } }

/-- Counterexample for C5: in a step in which the trigger cut_rates
fires and its patch is recorded, the FieldChange carries reducer_name
simulation_step (the shared step capture) and empty reducer_params —
not reducer_name trigger:cut_rates and not reducer_params op/value as
the claim states (op and value live in calculation_details instead). -/
theorem c5_counterexample :
    (stepSimulation stateNoCountries [(c5Trigger, {})]).newly_fired =
      ["cut_rates"] ∧
    (stepSimulation stateNoCountries [(c5Trigger, {})]).audit.field_changes =
      [{ field_path := "rules.regimes.trade.tariff_multiplier"
         old_value := PyVal.num 1
         new_value := PyVal.num 2
         reducer_name := "simulation_step"
         reducer_params := []
         calculation_details :=
           [("trigger_action", PyVal.str ("policy_patch")),
            ("operation", PyVal.str ("set")),
            ("patch_value", PyVal.num 2)] }] ∧
    ("trigger:cut_rates" : String) ≠ "simulation_step" := by
  refine ⟨by decide, by decide, by decide⟩

/-- The patch of c5Trigger on its own. -/
def c5Patch : PolicyPatch :=
  { path := ["rules", "regimes", "trade", "tariff_multiplier"]
    op := "set"
    value := PyVal.num 2 }

/-- The FieldChange that applying c5Patch through the step capture
records. -/
def c5Fc : FieldChange :=
  { field_path := "rules.regimes.trade.tariff_multiplier"
    old_value := PyVal.num 1
    new_value := PyVal.num 2
    reducer_name := "simulation_step"
    reducer_params := []
    calculation_details :=
      [("trigger_action", PyVal.str ("policy_patch")),
       ("operation", PyVal.str ("set")),
       ("patch_value", PyVal.num 2)] }

/-- Witness for C5 at a concrete input: the recorded change carries the
capture's attribution and the operation/value details. -/
theorem c5_witness :
    c5Fc.reducer_name = stepAudit0.reducer_name ∧
    c5Fc.reducer_params = stepAudit0.reducer_params ∧
    c5Fc.calculation_details =
      [("trigger_action", PyVal.str ("policy_patch")),
       ("operation", PyVal.str (c5Patch.op)),
       ("patch_value", c5Patch.value)] ∧
    c5Fc.field_path = pathStr c5Patch.path :=
  c5_patch_audit_attribution stateNoCountries c5Patch stepAudit0 c5Fc (by decide)

/-- A once-only trigger with no condition text (always true) that
sunsets after 4 turns. -/
def sunsetTrigger : Trigger :=
  { name := "sunset"
    condition := { whenSpec := none, once := true }
    action := {}
    expires_after_turns := some 4 }

/-- The bookkeeping after sunsetTrigger fired at turn 1. -/
def sunsetBook : TriggerBook :=
  { has_fired := true, times_fired := 1, last_fired_at_turn := some 1 }

/-- Counterexample for C4: sunsetTrigger fires on the step from t = 0
(post-increment turn 1, recorded in the bookkeeping); since t advances
by exactly 1 per successful step, the step four steps later is the one
with pre-increment t = 4, post-increment turn 5, where the claim
(t − f = 5 − 1 ≥ 4) predicts the expiry report — but the source calls
expire_triggers before reduce_world, against the pre-increment turn, so
newly_expired is empty there; the report first appears one step later
(pre-increment t = 5). -/
theorem c4_counterexample :
    (stepSimulation stateUSA [(sunsetTrigger, {})]).newly_fired = ["sunset"] ∧
    (stepSimulation stateUSA [(sunsetTrigger, {})]).books =
      [(sunsetTrigger, sunsetBook)] ∧
    (stepSimulation { stateUSA with t := 4 }
      [(sunsetTrigger, sunsetBook)]).newly_expired = [] ∧
    (stepSimulation { stateUSA with t := 5 }
      [(sunsetTrigger, sunsetBook)]).newly_expired = ["sunset"] := by
  refine ⟨by decide, by decide, by decide, by decide⟩

/-- C4 (amended): for a fired once-only trigger with
expires_after_turns = N and recorded fire turn f, a step reports the
trigger in newly_expired exactly when its pre-increment turn satisfies
t − f ≥ N (equivalently post-increment turn − f ≥ N + 1, one step later
than the claim states); the persistent bookkeeping is not modified by
expiry, so the trigger stays in the fired-set (it cannot re-arm) and is
reported expired again on every later step. -/
theorem c4_expiry_timing (s : GlobalState) (tr : Trigger) (bk : TriggerBook)
    (n : ℕ) (f : ℤ)
    (honce : tr.condition.once = true)
    (hfired : bk.has_fired = true)
    (hlast : bk.last_fired_at_turn = some f)
    (hf0 : f ≠ 0)
    (hexp : tr.expires_after_turns = some n) :
    ((stepSimulation s [(tr, bk)]).newly_expired =
      if (s.t : ℤ) - f ≥ (n : ℤ) then [tr.name] else []) ∧
    (stepSimulation s [(tr, bk)]).books = [(tr, bk)] ∧
    tr.name ∈ firedSetOf (stepSimulation s [(tr, bk)]).books := by
  have hskip : tr.condition.once ∧ tr.name ∈ firedSetOf [(tr, bk)] := by
    simp [firedSetOf, honce, hfired]
  refine ⟨?_, ?_, ?_⟩
  · show (expire_triggers (triggerPhase { s with t := s.t + 1 } [(tr, bk)] s
      (firedSetOf [(tr, bk)]) stepAudit0).1 [tr]
      (fireTurnMapOf [(tr, bk)])).1 = _
    have hloop : triggerPhase { s with t := s.t + 1 } [(tr, bk)] s
        (firedSetOf [(tr, bk)]) stepAudit0 =
        (s, [], firedSetOf [(tr, bk)], stepAudit0) := by
      unfold triggerPhase
      simp [hskip]
    rw [hloop]
    have hmap : fireTurnMapOf [(tr, bk)] = [(tr.name, f)] := by
      simp [fireTurnMapOf, hfired, honce, hlast, hf0, aset]
    rw [hmap]
    unfold expire_triggers
    by_cases hge : (s.t : ℤ) - f ≥ (n : ℤ)
    · rw [if_pos hge]
      simp [List.filter, hexp, alookup, hge]
    · rw [if_neg hge]
      simp [List.filter, hexp, alookup, hge]
  · show ([(tr, bk)].map _) = [(tr, bk)]
    have hn2 : (triggerPhase { s with t := s.t + 1 } [(tr, bk)] s
        (firedSetOf [(tr, bk)]) { reducer_name := "simulation_step" }).2.1 =
        ([] : List String) := by
      unfold triggerPhase
      simp [hskip]
    simp [hn2]
  · have hb : (stepSimulation s [(tr, bk)]).books = [(tr, bk)] := by
      show ([(tr, bk)].map _) = [(tr, bk)]
      have hn2 : (triggerPhase { s with t := s.t + 1 } [(tr, bk)] s
          (firedSetOf [(tr, bk)]) { reducer_name := "simulation_step" }).2.1 =
          ([] : List String) := by
        unfold triggerPhase
        simp [hskip]
      simp [hn2]
    rw [hb]
    simp [firedSetOf, honce, hfired]

/-- Witness for C4 at concrete inputs: at the step with pre-increment
turn 5 (post-increment turn 6), the sunset trigger fired at turn 1 with
N = 4 is reported expired, and it is still in the fired-set afterwards. -/
theorem c4_witness :
    (stepSimulation { stateUSA with t := 5 }
      [(sunsetTrigger, sunsetBook)]).newly_expired = ["sunset"] ∧
    "sunset" ∈ firedSetOf (stepSimulation { stateUSA with t := 5 }
      [(sunsetTrigger, sunsetBook)]).books := by
  obtain ⟨h1, h2, h3⟩ := c4_expiry_timing { stateUSA with t := 5 }
    sunsetTrigger sunsetBook 4 1 rfl rfl rfl (by decide) rfl
  refine ⟨?_, h3⟩
  rw [h1, if_pos (by decide)]
  rfl

/-- The sanctions rewrite of the spec scenario (weights 0.8 and 0.6). -/
def c3Rewrite : NetworkRewrite :=
  { layer := "sanctions", edits := [("USA", "RUS", 4/5), ("EU27", "RUS", 3/5)] }

/-- A trigger with no condition text (always true) carrying the
sanctions rewrite. -/
def c3Trigger : Trigger :=
  { name := "sanctions_2025"
    condition := { whenSpec := none, once := true }
    action := { network_rewrites := [c3Rewrite] } }

/-- C3 evaluated at the failing input: the trigger fires, but the
network rewrite dies on the dict-style access to the typed state (and
would next die on the missing network_edits attribute), so the
sanctions matrix stays empty, no FieldChange is recorded, and only the
caught-exception error appears; apply_network_rewrite behaves the same
on a state that does contain countries. -/
theorem c3_network_rewrite_failing_run :
    (stepSimulation stateNoCountries [(c3Trigger, {})]).newly_fired =
      ["sanctions_2025"] ∧
    (stepSimulation stateNoCountries [(c3Trigger, {})]).new_state.sanctions = [] ∧
    (stepSimulation stateNoCountries [(c3Trigger, {})]).audit.field_changes = [] ∧
    (stepSimulation stateNoCountries [(c3Trigger, {})]).audit.errors =
      ["Failed to apply network rewrite for sanctions: GlobalState object has no attribute get",
       "Base currency country USA not found"] ∧
    apply_network_rewrite stateUSA c3Rewrite stepAudit0 =
      (stateUSA, stepAudit0.add_error
        ("Failed to apply network rewrite for sanctions: GlobalState object has no attribute get")) := by
  refine ⟨by decide, by decide, by decide, by decide, by rfl⟩

/-- A trigger with no condition text (always true) that tries to switch
the monetary-policy implementation to fx_peg. -/
def c6Trigger : Trigger :=
  { name := "switch_to_peg"
    condition := { whenSpec := none, once := true }
    action := { overrides := [{ target := "monetary_policy", impl_name := "fx_peg" }] } }

/-- C6 evaluated at the failing input: the reducer-override action dies
on the dict-style item assignment to the typed state, so it records
only the caught-exception error, writes nothing into the state
(rules.reducer_overrides cannot even exist on the typed
SimulationRules) and records no FieldChange; reduce_world selects the
monetary implementation solely from rules.regimes.monetary.rule. -/
theorem c6_override_failing_run :
    (stepSimulation stateNoCountries [(c6Trigger, {})]).newly_fired =
      ["switch_to_peg"] ∧
    (stepSimulation stateNoCountries [(c6Trigger, {})]).audit.field_changes = [] ∧
    (stepSimulation stateNoCountries [(c6Trigger, {})]).audit.errors =
      ["Failed to apply reducer override monetary_policy: GlobalState object does not support item assignment",
       "Base currency country USA not found"] ∧
    (stepSimulation stateNoCountries [(c6Trigger, {})]).new_state =
      stateNoCountries ∧
    apply_reducer_override stateUSA { target := "monetary_policy", impl_name := "fx_peg" }
      stepAudit0 =
      (stateUSA, stepAudit0.add_error
        ("Failed to apply reducer override monetary_policy: GlobalState object does not support item assignment")) := by
  refine ⟨by decide, by decide, by decide, by rfl, by rfl⟩

/-- The audit trigger-fired list is never empty after add_trigger_fired. -/
theorem add_trigger_fired_ne_nil (a : AuditCapture) (nm : String) :
    (a.add_trigger_fired nm).triggers_fired ≠ [] := by
  unfold AuditCapture.add_trigger_fired
  split
  case _ hmem => exact List.ne_nil_of_mem hmem
  case _ hmem => simp

/-- Inside a step, field changes exist before the reducers run only if
some trigger fired: apply_trigger appends the trigger name to
triggers_fired right after recording its changes, and triggers_fired
never shrinks.  (This backs the guard of monetary_policy_taylor: a
recorded change at a policy-rate path at that point implies a non-empty
fired list, so the hypothesis of the skip-marker theorem is exactly the
reachable situation.) -/
theorem triggerPhase_changes_imply_fired (evalState : GlobalState)
    (books : List (Trigger × TriggerBook)) (s : GlobalState)
    (fired0 : List String) :
    (triggerPhase evalState books s fired0 stepAudit0).2.2.2.field_changes ≠ [] →
    (triggerPhase evalState books s fired0 stepAudit0).2.2.2.triggers_fired ≠ [] := by
  unfold triggerPhase
  refine foldl_preserve
    (fun acc : GlobalState × List String × List String × AuditCapture =>
      acc.2.2.2.field_changes ≠ [] → acc.2.2.2.triggers_fired ≠ [])
    _ books _ (fun hne => absurd rfl hne) ?_
  intro acc x hacc
  obtain ⟨sA, nA, fA, aA⟩ := acc
  dsimp only
  split
  · exact hacc
  · split
    · split
      · intro hne2
        exact add_trigger_fired_ne_nil _ _
      · -- apply_trigger always returns success = true in the source,
        -- so this branch is unreachable
        rename_i hsucc
        intro hne2
        exact absurd rfl hsucc
    · exact hacc
